import Mathlib

/-!
# R-Tree spatial index: embedding and verification

Shallow embedding of `rtree_engine/src/{geometry,RTreeNode,RTree}.cpp`.

Modelling conventions
* The code is embedded twice. In the first embedding `double` is modelled by
  exact rational arithmetic (`ℚ`): every finite `double` is a rational, and no
  rounding or overflow is modelled; it carries the structural invariants and
  the evaluations on small integer coordinates, which are exact in `double`.
  The second embedding, in the namespace `Binary64`, repeats the same
  functions over IEEE 754 binary64 values with rounding to nearest, overflow
  to infinity, gradual underflow and NaN; it carries what depends on them.
* `int` identifiers and indices are `Int`.
* Heap objects (`RTreeNode`) live in an explicit store, a list of nodes in
  which the address of a node is its position; `nullptr` is `none`.
  `std::unique_ptr` and raw pointers are both addresses into that store.
* Undefined behaviour of the C++ code (null dereference, out-of-range vector
  index) is an explicit `Fault`; loops and recursion that the C++ code runs
  without a bound carry a step budget and report `Fault.out_of_fuel` when
  it is used up.
-/

namespace RTreeSpatial

/-! ## geometry.h / geometry.cpp -/

/-- The `struct Point` of geometry.h. -/
structure Point where
  x : ℚ
  y : ℚ
deriving DecidableEq

/-- The `struct Rectangle` of geometry.h. -/
structure Rectangle where
  min_point : Point
  max_point : Point
deriving DecidableEq

namespace Rectangle

/-- Method `Rectangle::area`, in exact arithmetic (`Binary64.Rectangle.area`
is the rounded one). -/
def area (r : Rectangle) : ℚ :=
  (r.max_point.x - r.min_point.x) * (r.max_point.y - r.min_point.y)

/-- Method `Rectangle::intersects`. -/
def intersects (r other : Rectangle) : Bool :=
  if r.max_point.x < other.min_point.x ∨ r.min_point.x > other.max_point.x then
    false
  else if r.max_point.y < other.min_point.y ∨ r.min_point.y > other.max_point.y then
    false
  else
    true

/-- Method `Rectangle::enlargement`, in exact arithmetic
(`Binary64.Rectangle.enlargement` is the rounded one). -/
def enlargement (r other : Rectangle) : ℚ :=
  let combined_min_x := min r.min_point.x other.min_point.x
  let combined_min_y := min r.min_point.y other.min_point.y
  let combined_max_x := max r.max_point.x other.max_point.x
  let combined_max_y := max r.max_point.y other.max_point.y
  let combined_area := (combined_max_x - combined_min_x) * (combined_max_y - combined_min_y)
  combined_area - r.area

/-- A rectangle is well formed when its min corner is below its max corner on
both axes (spec, data model). -/
def well_formed (r : Rectangle) : Prop :=
  r.min_point.x ≤ r.max_point.x ∧ r.min_point.y ≤ r.max_point.y

/-- The point `p` lies in the closed rectangle `r`. -/
def contains_point (r : Rectangle) (p : Point) : Prop :=
  r.min_point.x ≤ p.x ∧ p.x ≤ r.max_point.x ∧ r.min_point.y ≤ p.y ∧ p.y ≤ r.max_point.y

/-- The union MBR of two rectangles: per-axis min of the min corners and max
of the max corners, as computed inline by `enlargement`. -/
def union_mbr (a b : Rectangle) : Rectangle :=
  { min_point := { x := min a.min_point.x b.min_point.x, y := min a.min_point.y b.min_point.y },
    max_point := { x := max a.max_point.x b.max_point.x, y := max a.max_point.y b.max_point.y } }

instance (r : Rectangle) : Decidable r.well_formed := by
  unfold well_formed; infer_instance

instance (r : Rectangle) (p : Point) : Decidable (r.contains_point p) := by
  unfold contains_point; infer_instance

end Rectangle

/-- Rectangle literal `{{x0, y0}, {x1, y1}}`. -/
def rect (x0 y0 x1 y1 : ℚ) : Rectangle :=
  { min_point := { x := x0, y := y0 }, max_point := { x := x1, y := y1 } }

/-! ## RTreeNode.h / RTreeNode.cpp -/

/-- The `numeric_limits<double>::max()` constant, `(2 - 2^-52) * 2^1023`. -/
def DBL_MAX : ℚ := 2 ^ 1024 - 2 ^ 971

/-- The `RTreeNode::Entry` struct: `child_ptr` is `none` for `nullptr`. -/
structure Entry where
  mbr : Rectangle
  child_ptr : Option Nat
  data_id : Int
deriving DecidableEq

/-- The `struct RTreeNode`; `parent` is a raw pointer, `none` for `nullptr`. -/
structure RTreeNode where
  parent : Option Nat
  is_leaf : Bool
  entries : List Entry
deriving DecidableEq

/-- Undefined behaviour of the C++ code, and exhaustion of a step budget. -/
inductive Fault where
  | null_deref
  | out_of_range
  | out_of_fuel
deriving DecidableEq

deriving instance DecidableEq for Except

/-- Body of the loop of `RTreeNode::get_mbr`: the running MBR is widened by
per-axis min/max to take in the MBR of the next entry. -/
def get_mbr_step (mbr : Rectangle) (entry : Entry) : Rectangle :=
  { min_point := { x := min mbr.min_point.x entry.mbr.min_point.x,
                   y := min mbr.min_point.y entry.mbr.min_point.y },
    max_point := { x := max mbr.max_point.x entry.mbr.max_point.x,
                   y := max mbr.max_point.y entry.mbr.max_point.y } }

/-- Method `RTreeNode::get_mbr`. -/
def RTreeNode.get_mbr (node : RTreeNode) : Rectangle :=
  match node.entries with
  | [] =>
    { min_point := { x := DBL_MAX, y := DBL_MAX },
      max_point := { x := -DBL_MAX, y := -DBL_MAX } }
  | e0 :: rest => rest.foldl get_mbr_step e0.mbr

/-! ## RTree.h / RTree.cpp -/

/-- Field `m_max_entries` of `RTree` (initialised to 4, never assigned). -/
def m_max_entries : Nat := 4

/-- Field `m_min_entries` of `RTree` (initialised to 2, never assigned or read). -/
def m_min_entries : Nat := 2

/-- The `RTree` object together with the heap of nodes it owns: the address of
a node is its position in `store`, allocation appends to `store`. -/
structure RTree where
  store : List RTreeNode
  m_root : Nat
deriving DecidableEq

/-- Dereference of a node pointer. -/
def deref (store : List RTreeNode) (p : Option Nat) : Except Fault RTreeNode :=
  match p with
  | none => .error .null_deref
  | some a =>
    match store[a]? with
    | none => .error .null_deref
    | some node => .ok node

/-- The `operator[]` of `std::vector` on an `int` index (out of range is
undefined behaviour). -/
def vec_at (v : List Entry) (i : Int) : Except Fault Entry :=
  if i < 0 then .error .out_of_range
  else
    match v[i.toNat]? with
    | none => .error .out_of_range
    | some e => .ok e

/-- Read of `v[i].mbr` for an index the enclosing loop keeps in range. -/
def mbr_at (v : List Entry) (i : Nat) : Rectangle :=
  match v[i]? with
  | some e => e.mbr
  | none => { min_point := { x := 0, y := 0 }, max_point := { x := 0, y := 0 } }

/-- The constructor `RTree::RTree`: one empty leaf root. -/
def RTree.new : RTree :=
  { store := [{ parent := none, is_leaf := true, entries := [] }], m_root := 0 }

/-- The private helper `RTree::search(query_box, node, result)`; `fuel` bounds
the recursion depth. -/
def search_node (store : List RTreeNode) (query_box : Rectangle) :
    Nat → Option Nat → List Int → Except Fault (List Int)
  | _, none, result => .ok result
  | 0, some _, _ => .error .out_of_fuel
  | fuel + 1, some a, result =>
    match deref store (some a) with
    | .error f => .error f
    | .ok node =>
      node.entries.foldlM (fun (result : List Int) (entry : Entry) =>
        if entry.mbr.intersects query_box then
          if node.is_leaf then
            .ok (result ++ [entry.data_id])
          else
            search_node store query_box fuel entry.child_ptr result
        else
          .ok result) result

/-- The public `RTree::search(query_box)`. -/
def RTree.search (t : RTree) (query_box : Rectangle) : Except Fault (List Int) :=
  search_node t.store query_box t.store.length (some t.m_root) []

/-- State of the inner `for` loop of `choose_leaf`:
`(next_node, min_enlargement, min_area)`. -/
abbrev ChooseState := Option Nat × ℚ × ℚ

/-- One iteration of the inner `for` loop of `choose_leaf`. -/
def choose_step (new_entry_mbr : Rectangle) (st : ChooseState) (entry : Entry) : ChooseState :=
  let enlargement := entry.mbr.enlargement new_entry_mbr
  if enlargement < st.2.1 then
    (entry.child_ptr, enlargement, entry.mbr.area)
  else if enlargement = st.2.1 then
    let area := entry.mbr.area
    if area < st.2.2 then (entry.child_ptr, st.2.1, area) else st
  else st

/-- The inner `for` loop of `choose_leaf`: the `next_node` it ends with, the
costs being compared in exact arithmetic (`Binary64.choose_subtree` compares
the rounded ones). -/
def choose_subtree (entries : List Entry) (new_entry_mbr : Rectangle) : Option Nat :=
  (entries.foldl (choose_step new_entry_mbr) (none, DBL_MAX, DBL_MAX)).1

/-- The `while (!current_node->is_leaf)` loop of `choose_leaf`. -/
def choose_leaf_loop (store : List RTreeNode) (new_entry_mbr : Rectangle) :
    Nat → Option Nat → Except Fault Nat
  | 0, _ => .error .out_of_fuel
  | fuel + 1, current_node =>
    match current_node with
    | none => .error .null_deref
    | some a =>
      match deref store (some a) with
      | .error f => .error f
      | .ok node =>
        if node.is_leaf then .ok a
        else choose_leaf_loop store new_entry_mbr fuel (choose_subtree node.entries new_entry_mbr)

/-- Method `RTree::choose_leaf`. -/
def RTree.choose_leaf (t : RTree) (new_entry_mbr : Rectangle) : Except Fault Nat :=
  choose_leaf_loop t.store new_entry_mbr (t.store.length + 1) (some t.m_root)

/-- The loop of `RTree::adjust_tree`: it walks the parent pointers up to
`nullptr` and changes nothing. -/
def adjust_tree_loop (store : List RTreeNode) : Nat → Option Nat → Except Fault Unit
  | _, none => .ok ()
  | 0, some _ => .error .out_of_fuel
  | fuel + 1, some a =>
    match deref store (some a) with
    | .error f => .error f
    | .ok node => adjust_tree_loop store fuel node.parent

/-- Method `RTree::adjust_tree`. -/
def RTree.adjust_tree (t : RTree) (node : Nat) : Except Fault RTree :=
  match adjust_tree_loop t.store (t.store.length + 1) (some node) with
  | .error f => .error f
  | .ok _ => .ok t

/-- State of the seed-selection loops of `split_node`:
`(seed1_idx, seed2_idx, max_wasted_area)`. -/
abbrev SeedState := Int × Int × ℚ

/-- The `wasted_area` that the seed-selection loop of `split_node` computes for
the pair `(i, j)`: area of the combined MBR minus the two areas. -/
def wasted_area (all_entries : List Entry) (i j : Nat) : ℚ :=
  let combined_mbr : Rectangle :=
    { min_point := { x := min (mbr_at all_entries i).min_point.x (mbr_at all_entries j).min_point.x,
                     y := min (mbr_at all_entries i).min_point.y (mbr_at all_entries j).min_point.y },
      max_point := { x := max (mbr_at all_entries i).max_point.x (mbr_at all_entries j).max_point.x,
                     y := max (mbr_at all_entries i).max_point.y (mbr_at all_entries j).max_point.y } }
  combined_mbr.area - (mbr_at all_entries i).area - (mbr_at all_entries j).area

/-- Body of the inner seed-selection loop of `split_node` at the pair `(i, j)`. -/
def seed_step (all_entries : List Entry) (i : Nat) (st : SeedState) (j : Nat) : SeedState :=
  if wasted_area all_entries i j > st.2.2 then ((i : Int), (j : Int), wasted_area all_entries i j)
  else st

/-- The two nested seed-selection loops of `split_node`
(`i` from 0, `j` from `i + 1`, both below `all_entries.size()`). -/
def pick_seeds (all_entries : List Entry) : SeedState :=
  (List.range all_entries.length).foldl (fun (st : SeedState) (i : Nat) =>
    (List.range' (i + 1) (all_entries.length - (i + 1))).foldl (seed_step all_entries i) st)
    ((-1 : Int), (-1 : Int), (-1 : ℚ))

/-- The `all_assigned` scan at the head of the distribution loop. -/
def all_assigned (assigned : List Bool) : Bool :=
  assigned.all (fun b => b)

/-- Body of the loop that picks `best_entry_idx`; the state is
`(best_entry_idx, max_diff)`. -/
def best_step (all_entries : List Entry) (assigned : List Bool) (node new_node : RTreeNode)
    (st : Int × ℚ) (i : Nat) : Int × ℚ :=
  if assigned.getD i false then st
  else
    let cost1 := node.get_mbr.enlargement (mbr_at all_entries i)
    let cost2 := new_node.get_mbr.enlargement (mbr_at all_entries i)
    let diff := |cost1 - cost2|
    if diff > st.2 then ((i : Int), diff) else st

/-- The loop of `split_node` that picks `best_entry_idx`, in exact arithmetic,
where `diff` is never NaN (`Binary64.pick_best` is the rounded one). -/
def pick_best (all_entries : List Entry) (assigned : List Bool) (node new_node : RTreeNode) : Int :=
  ((List.range all_entries.length).foldl (best_step all_entries assigned node new_node)
    ((-1 : Int), (-1 : ℚ))).1

/-- The `while (true)` distribution loop of `split_node`, with the costs of
exact arithmetic (`Binary64.distribute` has the rounded ones); it returns the
two nodes and the `assigned` flags it ends with. -/
def distribute (all_entries : List Entry) :
    Nat → RTreeNode → RTreeNode → List Bool → Except Fault (RTreeNode × RTreeNode × List Bool)
  | 0, _, _, _ => .error .out_of_fuel
  | fuel + 1, node, new_node, assigned =>
    if all_assigned assigned then .ok (node, new_node, assigned)
    else
      let best_entry_idx := pick_best all_entries assigned node new_node
      if best_entry_idx ≠ -1 then
        match vec_at all_entries best_entry_idx with
        | .error f => .error f
        | .ok e =>
          let cost1 := node.get_mbr.enlargement e.mbr
          let cost2 := new_node.get_mbr.enlargement e.mbr
          if cost1 < cost2 then
            distribute all_entries fuel { node with entries := node.entries ++ [e] } new_node
              (assigned.set best_entry_idx.toNat true)
          else
            distribute all_entries fuel node { new_node with entries := new_node.entries ++ [e] }
              (assigned.set best_entry_idx.toNat true)
      else .ok (node, new_node, assigned)

/-- Lines 95-167 of `split_node`: the entries of `node` are swapped out, the
seeds are chosen, the sibling is created with the parent and leaf flag of
`node`, and the remaining entries are distributed. Returns `node` and the
sibling as they are when the distribution loop ends. -/
def split_entries (node : RTreeNode) : Except Fault (RTreeNode × RTreeNode) :=
  let all_entries := node.entries
  let seeds := pick_seeds all_entries
  match vec_at all_entries seeds.1 with
  | .error f => .error f
  | .ok e1 =>
    match vec_at all_entries seeds.2.1 with
    | .error f => .error f
    | .ok e2 =>
      let node1 : RTreeNode := { node with entries := [e1] }
      let new_node : RTreeNode := { parent := node.parent, is_leaf := node.is_leaf, entries := [e2] }
      let assigned := ((List.replicate all_entries.length false).set seeds.1.toNat true).set
        seeds.2.1.toNat true
      match distribute all_entries (all_entries.length + 1) node1 new_node assigned with
      | .error f => .error f
      | .ok r => .ok (r.1, r.2.1)

/-- The loop of `split_node` that overwrites the MBR of the first entry of the
parent whose child is `node`. -/
def update_child_mbr : List Entry → Nat → Rectangle → List Entry
  | [], _, _ => []
  | entry :: rest, node, mbr =>
    if entry.child_ptr = some node then { entry with mbr := mbr } :: rest
    else entry :: update_child_mbr rest node mbr

/-- Method `RTree::split_node`; `fuel` bounds the depth of the recursion into the
parent. The sibling is allocated at address `store.length`, a new root right
after it. -/
def split_node : Nat → RTree → Nat → Except Fault RTree
  | 0, _, _ => .error .out_of_fuel
  | fuel + 1, t, node =>
    match deref t.store (some node) with
    | .error f => .error f
    | .ok nd =>
      match split_entries nd with
      | .error f => .error f
      | .ok (node1, new_node) =>
        let new_node_ptr := t.store.length
        match node1.parent with
        | none =>
          let old_root_node := t.m_root
          let new_root_ptr := t.store.length + 1
          let node2 : RTreeNode := { node1 with parent := some new_root_ptr }
          let new_node2 : RTreeNode := { new_node with parent := some new_root_ptr }
          let new_root : RTreeNode :=
            { parent := none, is_leaf := false,
              entries := [{ mbr := node2.get_mbr, child_ptr := some old_root_node, data_id := -1 },
                          { mbr := new_node2.get_mbr, child_ptr := some new_node_ptr, data_id := -1 }] }
          .ok { store := (t.store.set node node2) ++ [new_node2, new_root], m_root := new_root_ptr }
        | some parent =>
          let store1 := (t.store.set node node1) ++ [new_node]
          match deref store1 (some parent) with
          | .error f => .error f
          | .ok par =>
            let par1 : RTreeNode :=
              { par with entries := update_child_mbr par.entries node node1.get_mbr ++
                  [{ mbr := new_node.get_mbr, child_ptr := some new_node_ptr, data_id := -1 }] }
            let t1 : RTree := { store := store1.set parent par1, m_root := t.m_root }
            if par1.entries.length > m_max_entries then split_node fuel t1 parent
            else .ok t1

/-- Method `RTree::insert`. -/
def RTree.insert (t : RTree) (point : Point) (id : Int) : Except Fault RTree :=
  let point_mbr : Rectangle := { min_point := point, max_point := point }
  match t.choose_leaf point_mbr with
  | .error f => .error f
  | .ok leaf =>
    match deref t.store (some leaf) with
    | .error f => .error f
    | .ok nd =>
      let nd1 : RTreeNode :=
        { nd with entries := nd.entries ++ [{ mbr := point_mbr, child_ptr := none, data_id := id }] }
      let t1 : RTree := { store := t.store.set leaf nd1, m_root := t.m_root }
      if nd1.entries.length > m_max_entries then split_node (t1.store.length + 1) t1 leaf
      else t1.adjust_tree leaf

/-- Method `RTree::clear`: the old root is destroyed together with every node it owns,
and a new empty leaf becomes the root. -/
def RTree.clear (_t : RTree) : RTree :=
  { store := [{ parent := none, is_leaf := true, entries := [] }], m_root := 0 }

/-- A sequence of `insert` calls, in order, starting from `t`. -/
def insert_all : List (Point × Int) → RTree → Except Fault RTree
  | [], t => .ok t
  | (p, id) :: rest, t =>
    match t.insert p id with
    | .error f => .error f
    | .ok t1 => insert_all rest t1

/-- Point literal. -/
def pt (x y : ℚ) : Point := { x := x, y := y }

/-- The five insertions of the concrete scenario of the spec. -/
def scenario : List (Point × Int) :=
  [(pt 1 1, 1), (pt 2 2, 2), (pt 50 50, 3), (pt 51 51, 4), (pt 100 100, 5)]

/-- Leaf entry `{ {p, p}, nullptr, id }` as pushed by `insert`. -/
def leaf_entry (p : Point) (id : Int) : Entry :=
  { mbr := { min_point := p, max_point := p }, child_ptr := none, data_id := id }

/-- The tree the scenario ends in: the old root (address 0) keeps four entries,
the sibling (address 1) holds one, the new root (address 2) wraps both. -/
def scenario_tree : RTree :=
  { store :=
      [ { parent := some 2, is_leaf := true,
          entries := [leaf_entry (pt 1 1) 1, leaf_entry (pt 2 2) 2, leaf_entry (pt 50 50) 3,
                      leaf_entry (pt 51 51) 4] },
        { parent := some 2, is_leaf := true, entries := [leaf_entry (pt 100 100) 5] },
        { parent := none, is_leaf := false,
          entries := [{ mbr := rect 1 1 51 51, child_ptr := some 0, data_id := -1 },
                      { mbr := rect 100 100 100 100, child_ptr := some 1, data_id := -1 }] } ],
    m_root := 2 }

/-- Thirty-six insertions of grid points with identifiers 0 to 35; the last
one makes three splits cascade up to an internal node whose five entries
overlap pairwise. -/
def overlap_trace : List (Point × Int) :=
  [
   (pt 1 2, 0), (pt 2 2, 1), (pt 3 1, 2), (pt 1 2, 3), (pt 0 3, 4), (pt 0 3, 5),
   (pt 2 0, 6), (pt 2 0, 7), (pt 3 3, 8), (pt 0 0, 9), (pt 0 2, 10), (pt 0 1, 11),
   (pt 1 3, 12), (pt 2 2, 13), (pt 2 2, 14), (pt 2 1, 15), (pt 2 3, 16), (pt 2 3, 17),
   (pt 3 0, 18), (pt 3 0, 19), (pt 2 1, 20), (pt 0 3, 21), (pt 3 0, 22), (pt 0 2, 23),
   (pt 1 2, 24), (pt 2 0, 25), (pt 2 3, 26), (pt 0 1, 27), (pt 1 2, 28), (pt 0 0, 29),
   (pt 2 0, 30), (pt 3 1, 31), (pt 0 1, 32), (pt 0 2, 33), (pt 0 2, 34), (pt 0 0, 35) ]

/-- The tree after the first 35 insertions of `overlap_trace`: 27 nodes, root at
address 21. -/
def overlap_tree : RTree :=
  { store :=
      [
      { parent := some 2, is_leaf := true,
        entries := [leaf_entry (pt 3 3) 8] },
      { parent := some 2, is_leaf := true,
        entries := [leaf_entry (pt 0 0) 9] },
      { parent := some 7, is_leaf := false,
        entries := [{ mbr := rect 3 3 3 3, child_ptr := some 0, data_id := -1 },
                    { mbr := rect 0 3 2 3, child_ptr := some 15, data_id := -1 },
                    { mbr := rect 1 2 2 2, child_ptr := some 18, data_id := -1 },
                    { mbr := rect 3 0 3 1, child_ptr := some 26, data_id := -1 }] },
      { parent := some 2, is_leaf := true,
        entries := [leaf_entry (pt 2 2) 1] },
      { parent := some 2, is_leaf := true,
        entries := [leaf_entry (pt 0 1) 11] },
      { parent := some 2, is_leaf := true,
        entries := [leaf_entry (pt 1 3) 12] },
      { parent := some 7, is_leaf := false,
        entries := [{ mbr := rect 0 0 0 2, child_ptr := some 1, data_id := -1 },
                    { mbr := rect 0 0 2 1, child_ptr := some 4, data_id := -1 },
                    { mbr := rect 1 2 2 2, child_ptr := some 3, data_id := -1 },
                    { mbr := rect 0 3 1 3, child_ptr := some 5, data_id := -1 }] },
      { parent := some 21, is_leaf := false,
        entries := [{ mbr := rect 1 0 2 2, child_ptr := some 16, data_id := -1 },
                    { mbr := rect 1 0 3 2, child_ptr := some 12, data_id := -1 },
                    { mbr := rect 0 0 2 3, child_ptr := some 6, data_id := -1 },
                    { mbr := rect 0 0 2 3, child_ptr := some 24, data_id := -1 }] },
      { parent := some 2, is_leaf := true,
        entries := [leaf_entry (pt 1 2) 0] },
      { parent := some 2, is_leaf := true,
        entries := [leaf_entry (pt 0 3) 4] },
      { parent := some 2, is_leaf := true,
        entries := [leaf_entry (pt 2 0) 6] },
      { parent := some 2, is_leaf := true,
        entries := [leaf_entry (pt 3 1) 2] },
      { parent := some 7, is_leaf := false,
        entries := [{ mbr := rect 3 0 3 1, child_ptr := some 11, data_id := -1 },
                    { mbr := rect 2 0 2 1, child_ptr := some 10, data_id := -1 },
                    { mbr := rect 1 2 2 2, child_ptr := some 8, data_id := -1 }] },
      { parent := some 2, is_leaf := true,
        entries := [leaf_entry (pt 1 2) 3] },
      { parent := some 2, is_leaf := true,
        entries := [leaf_entry (pt 2 0) 7] },
      { parent := some 2, is_leaf := true,
        entries := [leaf_entry (pt 0 3) 5,
                    leaf_entry (pt 2 3) 16,
                    leaf_entry (pt 2 3) 17,
                    leaf_entry (pt 2 3) 26] },
      { parent := some 7, is_leaf := false,
        entries := [{ mbr := rect 2 0 2 1, child_ptr := some 14, data_id := -1 },
                    { mbr := rect 1 2 2 2, child_ptr := some 13, data_id := -1 }] },
      { parent := some 2, is_leaf := true,
        entries := [leaf_entry (pt 0 2) 10,
                    leaf_entry (pt 0 1) 32,
                    leaf_entry (pt 0 2) 33,
                    leaf_entry (pt 0 2) 34] },
      { parent := some 2, is_leaf := true,
        entries := [leaf_entry (pt 2 2) 13,
                    leaf_entry (pt 2 2) 14,
                    leaf_entry (pt 1 2) 24,
                    leaf_entry (pt 1 2) 28] },
      { parent := some 7, is_leaf := false,
        entries := [{ mbr := rect 0 1 0 3, child_ptr := some 17, data_id := -1 },
                    { mbr := rect 0 3 0 3, child_ptr := some 9, data_id := -1 }] },
      { parent := some 21, is_leaf := false,
        entries := [{ mbr := rect 0 1 0 3, child_ptr := some 19, data_id := -1 }] },
      { parent := none, is_leaf := false,
        entries := [{ mbr := rect 0 0 3 3, child_ptr := some 7, data_id := -1 },
                    { mbr := rect 0 1 0 3, child_ptr := some 20, data_id := -1 },
                    { mbr := rect 0 2 3 3, child_ptr := some 25, data_id := -1 }] },
      { parent := some 2, is_leaf := true,
        entries := [leaf_entry (pt 0 3) 21,
                    leaf_entry (pt 0 2) 23,
                    leaf_entry (pt 0 1) 27,
                    leaf_entry (pt 0 0) 29] },
      { parent := some 2, is_leaf := true,
        entries := [leaf_entry (pt 2 1) 15,
                    leaf_entry (pt 2 1) 20,
                    leaf_entry (pt 2 0) 25,
                    leaf_entry (pt 2 0) 30] },
      { parent := some 7, is_leaf := false,
        entries := [{ mbr := rect 0 0 0 3, child_ptr := some 22, data_id := -1 },
                    { mbr := rect 2 0 2 1, child_ptr := some 23, data_id := -1 }] },
      { parent := some 21, is_leaf := false,
        entries := [{ mbr := rect 0 2 3 3, child_ptr := some 2, data_id := -1 }] },
      { parent := some 2, is_leaf := true,
        entries := [leaf_entry (pt 3 0) 18,
                    leaf_entry (pt 3 0) 19,
                    leaf_entry (pt 3 0) 22,
                    leaf_entry (pt 3 1) 31] } ],
    m_root := 21 }

/-- The leaf at address 17 after the first 35 insertions of `overlap_trace`:
the leaf that `choose_leaf` picks for the 36th point `(0,0)`. Its parent
pointer is 2, although the entry that owns it is in the node at address 19. -/
def overlap_leaf : RTreeNode :=
  { parent := some 2, is_leaf := true,
    entries := [leaf_entry (pt 0 2) 10, leaf_entry (pt 0 1) 32, leaf_entry (pt 0 2) 33,
                leaf_entry (pt 0 2) 34] }

/-- The internal node at address 2 after the first 35 insertions of
`overlap_trace`: the target of the parent pointer of `overlap_leaf`. -/
def overlap_parent : RTreeNode :=
  { parent := some 7, is_leaf := false,
    entries := [{ mbr := rect 3 3 3 3, child_ptr := some 0, data_id := -1 },
                { mbr := rect 0 3 2 3, child_ptr := some 15, data_id := -1 },
                { mbr := rect 1 2 2 2, child_ptr := some 18, data_id := -1 },
                { mbr := rect 3 0 3 1, child_ptr := some 26, data_id := -1 }] }

/-- The internal node at address 7 after the first 35 insertions of
`overlap_trace`: the target of the parent pointer of `overlap_parent`. -/
def overlap_node : RTreeNode :=
  { parent := some 21, is_leaf := false,
    entries := [{ mbr := rect 1 0 2 2, child_ptr := some 16, data_id := -1 },
                { mbr := rect 1 0 3 2, child_ptr := some 12, data_id := -1 },
                { mbr := rect 0 0 2 3, child_ptr := some 6, data_id := -1 },
                { mbr := rect 0 0 2 3, child_ptr := some 24, data_id := -1 }] }

/-! ## Views of the store used by the invariants -/

/-- The child pointers held by a node (none for a leaf). -/
def node_children (n : RTreeNode) : List (Option Nat) :=
  if n.is_leaf then [] else n.entries.map (fun e => e.child_ptr)

/-- The child pointers held by the node at address `a`. -/
def children_at (store : List RTreeNode) (a : Nat) : List (Option Nat) :=
  match store[a]? with
  | some n => node_children n
  | none => []

/-- The rectangle `b` lies inside the rectangle `a`: `a.min ≤ b.min` and
`b.max ≤ a.max` on both axes. -/
def Rectangle.contains_rect (a b : Rectangle) : Prop :=
  a.min_point.x ≤ b.min_point.x ∧ b.max_point.x ≤ a.max_point.x ∧
  a.min_point.y ≤ b.min_point.y ∧ b.max_point.y ≤ a.max_point.y

instance (a b : Rectangle) : Decidable (a.contains_rect b) := by
  unfold Rectangle.contains_rect; infer_instance

/-- The empty-node sentinel that `get_mbr` returns for a node without entries. -/
def empty_mbr : Rectangle :=
  { min_point := { x := DBL_MAX, y := DBL_MAX },
    max_point := { x := -DBL_MAX, y := -DBL_MAX } }

/-- Eleven insertions of distinct grid points with identifiers 1 to 11: the
tenth splits an internal node, the eleventh splits a leaf that the internal
split moved to the new sibling. -/
def stale_parent_trace : List (Point × Int) :=
  [(pt 9 6, 1), (pt 6 9, 2), (pt 2 6, 3), (pt 8 9, 4), (pt 9 8, 5), (pt 2 3, 6),
   (pt 3 7, 7), (pt 2 2, 8), (pt 2 9, 9), (pt 1 1, 10), (pt 2 4, 11)]

/-- The tree after the first ten insertions of `stale_parent_trace`: the
insertion of `(1,1)` split the old root (address 2), the leaves at addresses
3, 4 and 5 moved to the new sibling (address 6) and kept parent pointer 2. -/
def stale_parent_tree : RTree :=
  { store :=
    [
      { parent := some 2, is_leaf := true,
        entries := [leaf_entry (pt 9 6) 1] },
      { parent := some 2, is_leaf := true,
        entries := [leaf_entry (pt 8 9) 4,
                    leaf_entry (pt 9 8) 5,
                    leaf_entry (pt 6 9) 2] },
      { parent := some 7, is_leaf := false,
        entries := [{ mbr := rect 6 8 9 9, child_ptr := some 1, data_id := -1 },
                    { mbr := rect 9 6 9 6, child_ptr := some 0, data_id := -1 }] },
      { parent := some 2, is_leaf := true,
        entries := [leaf_entry (pt 2 9) 9,
                    leaf_entry (pt 2 6) 3,
                    leaf_entry (pt 2 3) 6,
                    leaf_entry (pt 2 2) 8] },
      { parent := some 2, is_leaf := true,
        entries := [leaf_entry (pt 3 7) 7] },
      { parent := some 2, is_leaf := true,
        entries := [leaf_entry (pt 1 1) 10] },
      { parent := some 7, is_leaf := false,
        entries := [{ mbr := rect 1 1 1 1, child_ptr := some 5, data_id := -1 },
                    { mbr := rect 2 2 2 9, child_ptr := some 3, data_id := -1 },
                    { mbr := rect 3 7 3 7, child_ptr := some 4, data_id := -1 }] },
      { parent := none, is_leaf := false,
        entries := [{ mbr := rect 6 6 9 9, child_ptr := some 2, data_id := -1 },
                    { mbr := rect 1 1 3 9, child_ptr := some 6, data_id := -1 }] } ],
    m_root := 7 }

/-- The tree after all eleven insertions of `stale_parent_trace`: the leaf at
address 3 was split and its sibling (address 8) was appended to the node at
address 2. -/
def stale_parent_tree_after : RTree :=
  { store :=
    [
      { parent := some 2, is_leaf := true,
        entries := [leaf_entry (pt 9 6) 1] },
      { parent := some 2, is_leaf := true,
        entries := [leaf_entry (pt 8 9) 4,
                    leaf_entry (pt 9 8) 5,
                    leaf_entry (pt 6 9) 2] },
      { parent := some 7, is_leaf := false,
        entries := [{ mbr := rect 6 8 9 9, child_ptr := some 1, data_id := -1 },
                    { mbr := rect 9 6 9 6, child_ptr := some 0, data_id := -1 },
                    { mbr := rect 2 2 2 6, child_ptr := some 8, data_id := -1 }] },
      { parent := some 2, is_leaf := true,
        entries := [leaf_entry (pt 2 9) 9] },
      { parent := some 2, is_leaf := true,
        entries := [leaf_entry (pt 3 7) 7] },
      { parent := some 2, is_leaf := true,
        entries := [leaf_entry (pt 1 1) 10] },
      { parent := some 7, is_leaf := false,
        entries := [{ mbr := rect 1 1 1 1, child_ptr := some 5, data_id := -1 },
                    { mbr := rect 2 2 2 9, child_ptr := some 3, data_id := -1 },
                    { mbr := rect 3 7 3 7, child_ptr := some 4, data_id := -1 }] },
      { parent := none, is_leaf := false,
        entries := [{ mbr := rect 6 6 9 9, child_ptr := some 2, data_id := -1 },
                    { mbr := rect 1 1 3 9, child_ptr := some 6, data_id := -1 }] },
      { parent := some 2, is_leaf := true,
        entries := [leaf_entry (pt 2 6) 3,
                    leaf_entry (pt 2 3) 6,
                    leaf_entry (pt 2 2) 8,
                    leaf_entry (pt 2 4) 11] } ],
    m_root := 7 }

/-- The tree after the five scenario insertions and `(200,200) → 6`: the leaf
at address 1 holds the new point, the root entry over it still has the MBR
`[100,100]-[100,100]`. -/
def stale_mbr_tree : RTree :=
  { store :=
    [
      { parent := some 2, is_leaf := true,
        entries := [leaf_entry (pt 1 1) 1,
                    leaf_entry (pt 2 2) 2,
                    leaf_entry (pt 50 50) 3,
                    leaf_entry (pt 51 51) 4] },
      { parent := some 2, is_leaf := true,
        entries := [leaf_entry (pt 100 100) 5,
                    leaf_entry (pt 200 200) 6] },
      { parent := none, is_leaf := false,
        entries := [{ mbr := rect 1 1 51 51, child_ptr := some 0, data_id := -1 },
                    { mbr := rect 100 100 100 100, child_ptr := some 1, data_id := -1 }] } ],
    m_root := 2 }

/-- The scratch list of the split that fails in `overlap_trace`: the four
entries of `overlap_node` and the entry appended for the new sibling. -/
def overlap_entries : List Entry :=
  overlap_node.entries ++ [{ mbr := rect 0 0 3 2, child_ptr := some 28, data_id := -1 }]

/-- Loop invariant of the seed selection: either no pair was taken and the
state is the initial one, or the state holds a pair `i < j` in range together
with its wasted area, which exceeds `-1`. -/
def seeds_hold (l : List Entry) (st : SeedState) : Prop :=
  (st.1 = -1 ∧ st.2.1 = -1 ∧ st.2.2 = -1) ∨
  (0 ≤ st.1 ∧ st.1 < st.2.1 ∧ st.2.1 < (l.length : Int) ∧
    st.2.2 = wasted_area l st.1.toNat st.2.1.toNat ∧ -1 < st.2.2)

namespace Binary64

/-- A `double`: a finite value, given by the rational number it denotes, an
infinity, or NaN. The sign of a zero is not modelled: the code never divides,
and its comparisons, `std::min`, `std::max`, `std::abs`, differences and
products give equal results on `-0.0` and `0.0`. -/
inductive Double where
  | fin (q : ℚ)
  | inf (neg : Bool)
  | nan
deriving DecidableEq

/-- The power `2 ^ k` for an integer exponent. -/
def pow2 (k : Int) : ℚ :=
  if 0 ≤ k then ((2 ^ k.toNat : Nat) : ℚ) else 1 / ((2 ^ (-k).toNat : Nat) : ℚ)

/-- The loop of `nat_log2`: halve `n` until it is below 2, counting the steps. -/
def log2_loop : Nat → Nat → Nat → Nat
  | 0, _, acc => acc
  | fuel + 1, n, acc => if n < 2 then acc else log2_loop fuel (n / 2) (acc + 1)

/-- The binary logarithm of a positive natural number, rounded down. -/
def nat_log2 (n : Nat) : Nat := log2_loop n n 0

/-- The binary exponent of a non-zero rational: the `k` with `2 ^ k ≤ |q| < 2 ^ (k + 1)`. -/
def ilog2 (q : ℚ) : Int :=
  let k : Int := (nat_log2 q.num.natAbs : Int) - (nat_log2 q.den : Int)
  if pow2 k ≤ |q| then k else k - 1

/-- Rounding of a non-negative rational to the nearest integer, ties to even. -/
def round_half_even (x : ℚ) : Int :=
  let f : Int := x.num / (x.den : Int)
  let r2 : Int := 2 * (x.num % (x.den : Int))
  if r2 < (x.den : Int) then f
  else if (x.den : Int) < r2 then f + 1
  else if f % 2 = 0 then f else f + 1

/-- Rounding of an exact result to binary64 (round to nearest, ties to even):
53 significant bits, least exponent `-1022` (gradual underflow), and an
infinity when the rounded magnitude reaches `2 ^ 1024`. -/
def round_to_double (q : ℚ) : Double :=
  if q = 0 then .fin 0
  else
    let e : Int := (if ilog2 q < -1022 then -1022 else ilog2 q) - 52
    let m : Int := round_half_even (|q| / pow2 e)
    let r : ℚ := (m : ℚ) * pow2 e
    if pow2 1024 ≤ r then .inf (decide (q < 0))
    else .fin (if q < 0 then -r else r)

/-- The `double` difference `a - b`. -/
def fsub : Double → Double → Double
  | .fin a, .fin b => round_to_double (a - b)
  | .fin _, .inf s => .inf (!s)
  | .inf s, .fin _ => .inf s
  | .inf s, .inf s2 => if s = s2 then .nan else .inf s
  | .nan, _ => .nan
  | _, .nan => .nan

/-- The `double` product `a * b`. -/
def fmul : Double → Double → Double
  | .fin a, .fin b => round_to_double (a * b)
  | .fin a, .inf s => if a = 0 then .nan else .inf (xor (decide (a < 0)) s)
  | .inf s, .fin b => if b = 0 then .nan else .inf (xor s (decide (b < 0)))
  | .inf s, .inf s2 => .inf (xor s s2)
  | .nan, _ => .nan
  | _, .nan => .nan

/-- The comparison `a < b` of two `double`s (false when either is NaN). -/
def flt : Double → Double → Bool
  | .fin a, .fin b => decide (a < b)
  | .fin _, .inf s => !s
  | .inf s, .fin _ => s
  | .inf s, .inf s2 => s && !s2
  | .nan, _ => false
  | _, .nan => false

/-- The comparison `a > b` of two `double`s. -/
def fgt (a b : Double) : Bool := flt b a

/-- The comparison `a == b` of two `double`s (false when either is NaN). -/
def feq : Double → Double → Bool
  | .fin a, .fin b => decide (a = b)
  | .inf s, .inf s2 => decide (s = s2)
  | _, _ => false

/-- The comparison `a <= b` of two `double`s (false when either is NaN). -/
def fle (a b : Double) : Bool := flt a b || feq a b

/-- The function `std::min(a, b)`: `(b < a) ? b : a`. -/
def fmin (a b : Double) : Double := if flt b a then b else a

/-- The function `std::max(a, b)`: `(a < b) ? b : a`. -/
def fmax (a b : Double) : Double := if flt a b then b else a

/-- The function `std::abs` on `double`. -/
def fabs : Double → Double
  | .fin q => .fin |q|
  | .inf _ => .inf false
  | .nan => .nan

/-- The `numeric_limits<double>::max()` constant. -/
def DBL_MAX : Double := .fin (2 ^ 1024 - 2 ^ 971)

/-- The `numeric_limits<double>::lowest()` constant. -/
def DBL_LOWEST : Double := .fin (-(2 ^ 1024 - 2 ^ 971))

/-- The `struct Point` of geometry.h. -/
structure Point where
  x : Double
  y : Double
deriving DecidableEq

/-- The `struct Rectangle` of geometry.h. -/
structure Rectangle where
  min_point : Point
  max_point : Point
deriving DecidableEq

namespace Rectangle

/-- Method `Rectangle::area`. -/
def area (r : Rectangle) : Double :=
  fmul (fsub r.max_point.x r.min_point.x) (fsub r.max_point.y r.min_point.y)

/-- Method `Rectangle::intersects`. -/
def intersects (r other : Rectangle) : Bool :=
  if flt r.max_point.x other.min_point.x || fgt r.min_point.x other.max_point.x then
    false
  else if flt r.max_point.y other.min_point.y || fgt r.min_point.y other.max_point.y then
    false
  else
    true

/-- Method `Rectangle::enlargement`. -/
def enlargement (r other : Rectangle) : Double :=
  let combined_min_x := fmin r.min_point.x other.min_point.x
  let combined_min_y := fmin r.min_point.y other.min_point.y
  let combined_max_x := fmax r.max_point.x other.max_point.x
  let combined_max_y := fmax r.max_point.y other.max_point.y
  let combined_area :=
    fmul (fsub combined_max_x combined_min_x) (fsub combined_max_y combined_min_y)
  fsub combined_area r.area

/-- The rectangle `b` lies inside the rectangle `a`: `a.min <= b.min` and
`b.max <= a.max` on both axes, as comparisons of `double`s. -/
def contains_rect (a b : Rectangle) : Prop :=
  fle a.min_point.x b.min_point.x = true ∧ fle b.max_point.x a.max_point.x = true ∧
  fle a.min_point.y b.min_point.y = true ∧ fle b.max_point.y a.max_point.y = true

instance (a b : Rectangle) : Decidable (a.contains_rect b) := by
  unfold contains_rect; infer_instance

end Rectangle

/-- Point literal with finite coordinates. -/
def pt (x y : ℚ) : Point := { x := .fin x, y := .fin y }

/-- Rectangle literal `{{x0, y0}, {x1, y1}}` with finite coordinates. -/
def rect (x0 y0 x1 y1 : ℚ) : Rectangle :=
  { min_point := pt x0 y0, max_point := pt x1 y1 }

/-- The `RTreeNode::Entry` struct: `child_ptr` is `none` for `nullptr`. -/
structure Entry where
  mbr : Rectangle
  child_ptr : Option Nat
  data_id : Int
deriving DecidableEq

/-- The `struct RTreeNode`; `parent` is a raw pointer, `none` for `nullptr`. -/
structure RTreeNode where
  parent : Option Nat
  is_leaf : Bool
  entries : List Entry
deriving DecidableEq

/-- Body of the loop of `RTreeNode::get_mbr`. -/
def get_mbr_step (mbr : Rectangle) (entry : Entry) : Rectangle :=
  { min_point := { x := fmin mbr.min_point.x entry.mbr.min_point.x,
                   y := fmin mbr.min_point.y entry.mbr.min_point.y },
    max_point := { x := fmax mbr.max_point.x entry.mbr.max_point.x,
                   y := fmax mbr.max_point.y entry.mbr.max_point.y } }

/-- Method `RTreeNode::get_mbr`. -/
def RTreeNode.get_mbr (node : RTreeNode) : Rectangle :=
  match node.entries with
  | [] =>
    { min_point := { x := DBL_MAX, y := DBL_MAX },
      max_point := { x := DBL_LOWEST, y := DBL_LOWEST } }
  | e0 :: rest => rest.foldl get_mbr_step e0.mbr

/-- The `RTree` object together with the heap of nodes: the address of a node
is its position in `store`, allocation appends to `store`. A node whose owning
entry is destroyed stays in the store, out of reach of the root. -/
structure RTree where
  store : List RTreeNode
  m_root : Nat
deriving DecidableEq

/-- Dereference of a node pointer. -/
def deref (store : List RTreeNode) (p : Option Nat) : Except Fault RTreeNode :=
  match p with
  | none => .error .null_deref
  | some a =>
    match store[a]? with
    | none => .error .null_deref
    | some node => .ok node

/-- The `operator[]` of `std::vector` on an `int` index (out of range is
undefined behaviour). -/
def vec_at (v : List Entry) (i : Int) : Except Fault Entry :=
  if i < 0 then .error .out_of_range
  else
    match v[i.toNat]? with
    | none => .error .out_of_range
    | some e => .ok e

/-- Read of `v[i].mbr` for an index the enclosing loop keeps in range. -/
def mbr_at (v : List Entry) (i : Nat) : Rectangle :=
  match v[i]? with
  | some e => e.mbr
  | none => rect 0 0 0 0

/-- The constructor `RTree::RTree`: one empty leaf root. -/
def RTree.new : RTree :=
  { store := [{ parent := none, is_leaf := true, entries := [] }], m_root := 0 }

/-- The private helper `RTree::search(query_box, node, result)`; `fuel` bounds
the recursion depth. -/
def search_node (store : List RTreeNode) (query_box : Rectangle) :
    Nat → Option Nat → List Int → Except Fault (List Int)
  | _, none, result => .ok result
  | 0, some _, _ => .error .out_of_fuel
  | fuel + 1, some a, result =>
    match deref store (some a) with
    | .error f => .error f
    | .ok node =>
      node.entries.foldlM (fun (result : List Int) (entry : Entry) =>
        if entry.mbr.intersects query_box then
          if node.is_leaf then
            .ok (result ++ [entry.data_id])
          else
            search_node store query_box fuel entry.child_ptr result
        else
          .ok result) result

/-- The public `RTree::search(query_box)`. -/
def RTree.search (t : RTree) (query_box : Rectangle) : Except Fault (List Int) :=
  search_node t.store query_box t.store.length (some t.m_root) []

/-- State of the inner `for` loop of `choose_leaf`:
`(next_node, min_enlargement, min_area)`. -/
abbrev ChooseState := Option Nat × Double × Double

/-- One iteration of the inner `for` loop of `choose_leaf`. -/
def choose_step (new_entry_mbr : Rectangle) (st : ChooseState) (entry : Entry) : ChooseState :=
  let enlargement := entry.mbr.enlargement new_entry_mbr
  if flt enlargement st.2.1 then
    (entry.child_ptr, enlargement, entry.mbr.area)
  else if feq enlargement st.2.1 then
    let area := entry.mbr.area
    if flt area st.2.2 then (entry.child_ptr, st.2.1, area) else st
  else st

/-- The inner `for` loop of `choose_leaf`: the `next_node` it ends with. -/
def choose_subtree (entries : List Entry) (new_entry_mbr : Rectangle) : Option Nat :=
  (entries.foldl (choose_step new_entry_mbr) (none, DBL_MAX, DBL_MAX)).1

/-- The `while (!current_node->is_leaf)` loop of `choose_leaf`. -/
def choose_leaf_loop (store : List RTreeNode) (new_entry_mbr : Rectangle) :
    Nat → Option Nat → Except Fault Nat
  | 0, _ => .error .out_of_fuel
  | fuel + 1, current_node =>
    match current_node with
    | none => .error .null_deref
    | some a =>
      match deref store (some a) with
      | .error f => .error f
      | .ok node =>
        if node.is_leaf then .ok a
        else choose_leaf_loop store new_entry_mbr fuel (choose_subtree node.entries new_entry_mbr)

/-- Method `RTree::choose_leaf`. -/
def RTree.choose_leaf (t : RTree) (new_entry_mbr : Rectangle) : Except Fault Nat :=
  choose_leaf_loop t.store new_entry_mbr (t.store.length + 1) (some t.m_root)

/-- The loop of `RTree::adjust_tree`: it walks the parent pointers up to
`nullptr` and changes nothing. -/
def adjust_tree_loop (store : List RTreeNode) : Nat → Option Nat → Except Fault Unit
  | _, none => .ok ()
  | 0, some _ => .error .out_of_fuel
  | fuel + 1, some a =>
    match deref store (some a) with
    | .error f => .error f
    | .ok node => adjust_tree_loop store fuel node.parent

/-- Method `RTree::adjust_tree`. -/
def RTree.adjust_tree (t : RTree) (node : Nat) : Except Fault RTree :=
  match adjust_tree_loop t.store (t.store.length + 1) (some node) with
  | .error f => .error f
  | .ok _ => .ok t

/-- State of the seed-selection loops of `split_node`:
`(seed1_idx, seed2_idx, max_wasted_area)`. -/
abbrev SeedState := Int × Int × Double

/-- The `wasted_area` that the seed-selection loop of `split_node` computes for
the pair `(i, j)`. -/
def wasted_area (all_entries : List Entry) (i j : Nat) : Double :=
  let combined_mbr : Rectangle :=
    { min_point :=
        { x := fmin (mbr_at all_entries i).min_point.x (mbr_at all_entries j).min_point.x,
          y := fmin (mbr_at all_entries i).min_point.y (mbr_at all_entries j).min_point.y },
      max_point :=
        { x := fmax (mbr_at all_entries i).max_point.x (mbr_at all_entries j).max_point.x,
          y := fmax (mbr_at all_entries i).max_point.y (mbr_at all_entries j).max_point.y } }
  fsub (fsub combined_mbr.area (mbr_at all_entries i).area) (mbr_at all_entries j).area

/-- Body of the inner seed-selection loop of `split_node` at the pair `(i, j)`. -/
def seed_step (all_entries : List Entry) (i : Nat) (st : SeedState) (j : Nat) : SeedState :=
  if fgt (wasted_area all_entries i j) st.2.2 then
    ((i : Int), (j : Int), wasted_area all_entries i j)
  else st

/-- The two nested seed-selection loops of `split_node`. -/
def pick_seeds (all_entries : List Entry) : SeedState :=
  (List.range all_entries.length).foldl (fun (st : SeedState) (i : Nat) =>
    (List.range' (i + 1) (all_entries.length - (i + 1))).foldl (seed_step all_entries i) st)
    ((-1 : Int), (-1 : Int), Double.fin (-1))

/-- Body of the loop that picks `best_entry_idx`; the state is
`(best_entry_idx, max_diff)`. -/
def best_step (all_entries : List Entry) (assigned : List Bool) (node new_node : RTreeNode)
    (st : Int × Double) (i : Nat) : Int × Double :=
  if assigned.getD i false then st
  else
    let cost1 := node.get_mbr.enlargement (mbr_at all_entries i)
    let cost2 := new_node.get_mbr.enlargement (mbr_at all_entries i)
    let diff := fabs (fsub cost1 cost2)
    if fgt diff st.2 then ((i : Int), diff) else st

/-- The loop of `split_node` that picks `best_entry_idx`. -/
def pick_best (all_entries : List Entry) (assigned : List Bool) (node new_node : RTreeNode) : Int :=
  ((List.range all_entries.length).foldl (best_step all_entries assigned node new_node)
    ((-1 : Int), Double.fin (-1))).1

/-- The `while (true)` distribution loop of `split_node`; it returns the two
nodes and the `assigned` flags it ends with. -/
def distribute (all_entries : List Entry) :
    Nat → RTreeNode → RTreeNode → List Bool → Except Fault (RTreeNode × RTreeNode × List Bool)
  | 0, _, _, _ => .error .out_of_fuel
  | fuel + 1, node, new_node, assigned =>
    if all_assigned assigned then .ok (node, new_node, assigned)
    else
      let best_entry_idx := pick_best all_entries assigned node new_node
      if best_entry_idx ≠ -1 then
        match vec_at all_entries best_entry_idx with
        | .error f => .error f
        | .ok e =>
          let cost1 := node.get_mbr.enlargement e.mbr
          let cost2 := new_node.get_mbr.enlargement e.mbr
          if flt cost1 cost2 then
            distribute all_entries fuel { node with entries := node.entries ++ [e] } new_node
              (assigned.set best_entry_idx.toNat true)
          else
            distribute all_entries fuel node { new_node with entries := new_node.entries ++ [e] }
              (assigned.set best_entry_idx.toNat true)
      else .ok (node, new_node, assigned)

/-- Lines 95-167 of `split_node`: seeds, sibling creation and distribution.
Returns `node` and the sibling as they are when the distribution loop ends;
the entries of the scratch list that were not assigned are destroyed with it. -/
def split_entries (node : RTreeNode) : Except Fault (RTreeNode × RTreeNode) :=
  let all_entries := node.entries
  let seeds := pick_seeds all_entries
  match vec_at all_entries seeds.1 with
  | .error f => .error f
  | .ok e1 =>
    match vec_at all_entries seeds.2.1 with
    | .error f => .error f
    | .ok e2 =>
      let node1 : RTreeNode := { node with entries := [e1] }
      let new_node : RTreeNode := { parent := node.parent, is_leaf := node.is_leaf, entries := [e2] }
      let assigned := ((List.replicate all_entries.length false).set seeds.1.toNat true).set
        seeds.2.1.toNat true
      match distribute all_entries (all_entries.length + 1) node1 new_node assigned with
      | .error f => .error f
      | .ok r => .ok (r.1, r.2.1)

/-- The loop of `split_node` that overwrites the MBR of the first entry of the
parent whose child is `node`. -/
def update_child_mbr : List Entry → Nat → Rectangle → List Entry
  | [], _, _ => []
  | entry :: rest, node, mbr =>
    if entry.child_ptr = some node then { entry with mbr := mbr } :: rest
    else entry :: update_child_mbr rest node mbr

/-- Method `RTree::split_node`; `fuel` bounds the depth of the recursion into
the parent. -/
def split_node : Nat → RTree → Nat → Except Fault RTree
  | 0, _, _ => .error .out_of_fuel
  | fuel + 1, t, node =>
    match deref t.store (some node) with
    | .error f => .error f
    | .ok nd =>
      match split_entries nd with
      | .error f => .error f
      | .ok (node1, new_node) =>
        let new_node_ptr := t.store.length
        match node1.parent with
        | none =>
          let old_root_node := t.m_root
          let new_root_ptr := t.store.length + 1
          let node2 : RTreeNode := { node1 with parent := some new_root_ptr }
          let new_node2 : RTreeNode := { new_node with parent := some new_root_ptr }
          let new_root : RTreeNode :=
            { parent := none, is_leaf := false,
              entries := [{ mbr := node2.get_mbr, child_ptr := some old_root_node, data_id := -1 },
                          { mbr := new_node2.get_mbr, child_ptr := some new_node_ptr, data_id := -1 }] }
          .ok { store := (t.store.set node node2) ++ [new_node2, new_root], m_root := new_root_ptr }
        | some parent =>
          let store1 := (t.store.set node node1) ++ [new_node]
          match deref store1 (some parent) with
          | .error f => .error f
          | .ok par =>
            let par1 : RTreeNode :=
              { par with entries := update_child_mbr par.entries node node1.get_mbr ++
                  [{ mbr := new_node.get_mbr, child_ptr := some new_node_ptr, data_id := -1 }] }
            let t1 : RTree := { store := store1.set parent par1, m_root := t.m_root }
            if par1.entries.length > m_max_entries then split_node fuel t1 parent
            else .ok t1

/-- Method `RTree::insert`. -/
def RTree.insert (t : RTree) (point : Point) (id : Int) : Except Fault RTree :=
  let point_mbr : Rectangle := { min_point := point, max_point := point }
  match t.choose_leaf point_mbr with
  | .error f => .error f
  | .ok leaf =>
    match deref t.store (some leaf) with
    | .error f => .error f
    | .ok nd =>
      let nd1 : RTreeNode :=
        { nd with entries := nd.entries ++ [{ mbr := point_mbr, child_ptr := none, data_id := id }] }
      let t1 : RTree := { store := t.store.set leaf nd1, m_root := t.m_root }
      if nd1.entries.length > m_max_entries then split_node (t1.store.length + 1) t1 leaf
      else t1.adjust_tree leaf

/-- A sequence of `insert` calls, in order, starting from `t`. -/
def insert_all : List (Point × Int) → RTree → Except Fault RTree
  | [], t => .ok t
  | (p, id) :: rest, t =>
    match t.insert p id with
    | .error f => .error f
    | .ok t1 => insert_all rest t1

/-- A leaf entry `{point_mbr, nullptr, id}` with finite coordinates. -/
def leaf_entry (x y : ℚ) (id : Int) : Entry :=
  { mbr := rect x y x y, child_ptr := none, data_id := id }

/-- Five insertions with distinct identifiers whose coordinates are `0` and
`± 2 ^ 600`: the products of the coordinate differences overflow. -/
def drop_trace : List (Point × Int) :=
  [(pt 0 0, 1), (pt (2 ^ 600) (2 ^ 600), 2), (pt (-2 ^ 600) (2 ^ 600), 3),
   (pt (2 ^ 600) (-2 ^ 600), 4), (pt (-2 ^ 600) (-2 ^ 600), 5)]

/-- The tree that `drop_trace` ends in: the old root (address 0) keeps one
entry, the sibling (address 1) holds two, the new root (address 2) wraps both;
the entries with identifiers 4 and 5 are in no node. -/
def drop_tree : RTree :=
  { store :=
      [ { parent := some 2, is_leaf := true, entries := [leaf_entry 0 0 1] },
        { parent := some 2, is_leaf := true,
          entries := [leaf_entry (2 ^ 600) (2 ^ 600) 2, leaf_entry (-2 ^ 600) (2 ^ 600) 3] },
        { parent := none, is_leaf := false,
          entries := [{ mbr := rect 0 0 0 0, child_ptr := some 0, data_id := -1 },
                      { mbr := rect (-2 ^ 600) (2 ^ 600) (2 ^ 600) (2 ^ 600),
                        child_ptr := some 1, data_id := -1 }] } ],
    m_root := 2 }

/-- The scratch list of the split that the fifth insertion of `drop_trace`
runs on the root leaf. -/
def drop_entries : List Entry :=
  [leaf_entry 0 0 1, leaf_entry (2 ^ 600) (2 ^ 600) 2, leaf_entry (-2 ^ 600) (2 ^ 600) 3,
   leaf_entry (2 ^ 600) (-2 ^ 600) 4, leaf_entry (-2 ^ 600) (-2 ^ 600) 5]

/-- The five insertions of the concrete scenario of the spec. -/
def scenario : List (Point × Int) :=
  [(pt 1 1, 1), (pt 2 2, 2), (pt 50 50, 3), (pt 51 51, 4), (pt 100 100, 5)]

/-- The tree the scenario ends in. -/
def scenario_tree : RTree :=
  { store :=
      [ { parent := some 2, is_leaf := true,
          entries := [leaf_entry 1 1 1, leaf_entry 2 2 2, leaf_entry 50 50 3,
                      leaf_entry 51 51 4] },
        { parent := some 2, is_leaf := true, entries := [leaf_entry 100 100 5] },
        { parent := none, is_leaf := false,
          entries := [{ mbr := rect 1 1 51 51, child_ptr := some 0, data_id := -1 },
                      { mbr := rect 100 100 100 100, child_ptr := some 1, data_id := -1 }] } ],
    m_root := 2 }

/-- Five leaf entries on the line `x = 0`, as the scratch list of a root leaf
split after inserting `(0,0)`, `(0,1)`, `(0,2)`, `(0,3)`, `(0,4)`. -/
def column_entries : List Entry :=
  [leaf_entry 0 0 1, leaf_entry 0 1 2, leaf_entry 0 2 3, leaf_entry 0 3 4, leaf_entry 0 4 5]

/-- The node being split right after the seeds of `column_entries` are taken. -/
def column_node : RTreeNode :=
  { parent := none, is_leaf := true, entries := [leaf_entry 0 0 1] }

/-- The new sibling right after the seeds of `column_entries` are taken. -/
def column_sibling : RTreeNode :=
  { parent := none, is_leaf := true, entries := [leaf_entry 0 1 2] }

/-- The node being split by the fifth insertion of `drop_trace` after the
first round of the distribution loop. -/
def drop_node : RTreeNode :=
  { parent := none, is_leaf := true, entries := [leaf_entry 0 0 1] }

/-- The new sibling after the first round of the distribution loop of the
fifth insertion of `drop_trace`. -/
def drop_sibling : RTreeNode :=
  { parent := none, is_leaf := true,
    entries := [leaf_entry (2 ^ 600) (2 ^ 600) 2,
                leaf_entry (-2 ^ 600) (2 ^ 600) 3] }

end Binary64

/-! ## Geometry: theorems -/

theorem Rectangle.intersects_iff (a b : Rectangle) :
    a.intersects b = true ↔
      (a.min_point.x ≤ b.max_point.x ∧ b.min_point.x ≤ a.max_point.x) ∧
      (a.min_point.y ≤ b.max_point.y ∧ b.min_point.y ≤ a.max_point.y) := by
  unfold Rectangle.intersects
  by_cases h1 : a.max_point.x < b.min_point.x ∨ a.min_point.x > b.max_point.x
  · simp only [h1, if_true]
    constructor
    · intro h; cases h
    · rintro ⟨⟨h2, h3⟩, _⟩
      rcases h1 with h1 | h1
      · exact absurd h3 (not_le.mpr h1)
      · exact absurd h2 (not_le.mpr h1)
  · simp only [h1, if_false]
    rw [not_or, not_lt, not_lt] at h1
    by_cases h2 : a.max_point.y < b.min_point.y ∨ a.min_point.y > b.max_point.y
    · simp only [h2, if_true]
      constructor
      · intro h; cases h
      · rintro ⟨_, h3, h4⟩
        rcases h2 with h2 | h2
        · exact absurd h4 (not_le.mpr h2)
        · exact absurd h3 (not_le.mpr h2)
    · simp only [h2, if_false]
      rw [not_or, not_lt, not_lt] at h2
      exact ⟨fun _ => ⟨⟨h1.2, h1.1⟩, ⟨h2.2, h2.1⟩⟩, fun _ => trivial⟩

theorem Rectangle.enlargement_eq (a b : Rectangle) :
    a.enlargement b = (a.union_mbr b).area - a.area := rfl

/-- C8: `intersects` is symmetric for all rectangles, well formed or not:
`a.intersects(b) = b.intersects(a)`. -/
theorem intersects_symmetric (a b : Rectangle) : a.intersects b = b.intersects a := by
  rw [Bool.eq_iff_iff, Rectangle.intersects_iff, Rectangle.intersects_iff]
  tauto

/-- C9: for well-formed rectangles `a` and `b`, `a.intersects(b)` holds exactly
when some point lies in both closed rectangles, which is the same as
`a.min ≤ b.max` and `b.min ≤ a.max` on both axes; the edge-touching pair
`[0,0]-[2,2]`, `[2,0]-[4,2]` intersects, and a rectangle contained in another one
intersects it. -/
theorem intersects_boundary_inclusive (a b : Rectangle)
    (ha : a.well_formed) (hb : b.well_formed) :
    ((a.intersects b = true ↔ ∃ p : Point, a.contains_point p ∧ b.contains_point p) ∧
     (a.intersects b = true ↔
        (a.min_point.x ≤ b.max_point.x ∧ b.min_point.x ≤ a.max_point.x) ∧
        (a.min_point.y ≤ b.max_point.y ∧ b.min_point.y ≤ a.max_point.y))) ∧
    (rect 0 0 2 2).intersects (rect 2 0 4 2) = true ∧
    (rect 2 0 4 2).intersects (rect 0 0 2 2) = true ∧
    ((a.min_point.x ≤ b.min_point.x ∧ b.max_point.x ≤ a.max_point.x ∧
      a.min_point.y ≤ b.min_point.y ∧ b.max_point.y ≤ a.max_point.y) →
        a.intersects b = true ∧ b.intersects a = true) := by
  obtain ⟨hax, hay⟩ := ha
  obtain ⟨hbx, hby⟩ := hb
  refine ⟨⟨?_, Rectangle.intersects_iff a b⟩, ?_, ?_, ?_⟩
  · rw [Rectangle.intersects_iff]
    constructor
    · rintro ⟨⟨h1, h2⟩, h3, h4⟩
      refine ⟨⟨max a.min_point.x b.min_point.x, max a.min_point.y b.min_point.y⟩, ?_, ?_⟩
      · exact ⟨le_max_left _ _, max_le hax h2, le_max_left _ _, max_le hay h4⟩
      · exact ⟨le_max_right _ _, max_le h1 hbx, le_max_right _ _, max_le h3 hby⟩
    · rintro ⟨p, ⟨h1, h2, h3, h4⟩, h5, h6, h7, h8⟩
      exact ⟨⟨h1.trans h6, h5.trans h2⟩, h3.trans h8, h7.trans h4⟩
  · rw [Rectangle.intersects_iff]; simp [rect]
  · rw [Rectangle.intersects_iff]; simp [rect]
  · rintro ⟨h1, h2, h3, h4⟩
    rw [Rectangle.intersects_iff, Rectangle.intersects_iff]
    exact ⟨⟨⟨h1.trans hbx, hbx.trans h2⟩, h3.trans hby, hby.trans h4⟩,
           ⟨hbx.trans h2, h1.trans hbx⟩, hby.trans h4, h3.trans hby⟩

/-- Witness for C9 at the overlapping pair of the unit test, `[0,0]-[2,2]` and
`[1,1]-[3,3]`. -/
theorem intersects_boundary_inclusive_witness :
    (rect 0 0 2 2).well_formed ∧ (rect 1 1 3 3).well_formed ∧
    ((rect 0 0 2 2).intersects (rect 1 1 3 3) = true ↔
      ∃ p : Point, (rect 0 0 2 2).contains_point p ∧ (rect 1 1 3 3).contains_point p) :=
  ⟨by decide!, by decide!,
   (intersects_boundary_inclusive (rect 0 0 2 2) (rect 1 1 3 3) (by decide!) (by decide!)).1.1⟩

/-- C10 fails as stated: the ill-formed rectangle `a = {(0,0),(-1,-1)}` (min above
max on both axes, like the empty-node sentinel) has area 1, its union with the
point `(0,0)` has area 0, so `a.enlargement(b) = -1 < 0`. -/
theorem enlargement_negative_on_ill_formed :
    ¬ (∀ a b : Rectangle, a.enlargement b = (a.union_mbr b).area - a.area ∧ 0 ≤ a.enlargement b) := by
  intro h
  have h2 := (h (rect 0 0 (-1) (-1)) (rect 0 0 0 0)).2
  revert h2
  decide!

/-- C10 (amended): for every well-formed rectangle `a` and every rectangle `b`,
`a.enlargement(b) = area(union_mbr(a,b)) - area(a)` and it is non-negative. -/
theorem enlargement_nonneg (a b : Rectangle) (ha : a.well_formed) :
    a.enlargement b = (a.union_mbr b).area - a.area ∧ 0 ≤ a.enlargement b := by
  refine ⟨rfl, ?_⟩
  obtain ⟨hx, hy⟩ := ha
  unfold Rectangle.enlargement Rectangle.area
  simp only
  have h1 : a.max_point.x - a.min_point.x ≤
      max a.max_point.x b.max_point.x - min a.min_point.x b.min_point.x :=
    sub_le_sub (le_max_left _ _) (min_le_left _ _)
  have h2 : a.max_point.y - a.min_point.y ≤
      max a.max_point.y b.max_point.y - min a.min_point.y b.min_point.y :=
    sub_le_sub (le_max_left _ _) (min_le_left _ _)
  have h3 : 0 ≤ a.max_point.x - a.min_point.x := sub_nonneg.mpr hx
  have h4 : 0 ≤ a.max_point.y - a.min_point.y := sub_nonneg.mpr hy
  have := mul_le_mul h1 h2 h4 (h3.trans h1)
  linarith

/-- Witness for the amended C10 at `a = [0,0]-[2,2]`, `b = [1,1]-[3,3]`. -/
theorem enlargement_nonneg_witness :
    (rect 0 0 2 2).well_formed ∧ 0 ≤ (rect 0 0 2 2).enlargement (rect 1 1 3 3) :=
  ⟨by decide!, (enlargement_nonneg (rect 0 0 2 2) (rect 1 1 3 3) (by decide!)).2⟩

/-! ## Splitting: seed selection and distribution -/

theorem foldl_invariant {α β : Type} (P : β → Prop) (f : β → α → β) (l : List α) (b : β)
    (h0 : P b) (hstep : ∀ b a, a ∈ l → P b → P (f b a)) : P (l.foldl f b) := by
  induction l generalizing b with
  | nil => exact h0
  | cons a l ih =>
    rw [List.foldl_cons]
    exact ih _ (hstep b a (List.mem_cons_self a l) h0)
      (fun b' a' ha' hb' => hstep b' a' (List.mem_cons_of_mem a ha') hb')

theorem flatMap_range_update {β : Type} (f g : Nat → List β) (n a : Nat) (extra : List β)
    (ha : a < n) (hsame : ∀ b, b < n → b ≠ a → g b = f b)
    (hat : List.Perm (g a) (f a ++ extra)) :
    List.Perm ((List.range n).flatMap g) ((List.range n).flatMap f ++ extra) := by
  have hmem : a ∈ List.range n := List.mem_range.mpr ha
  have hp := List.perm_cons_erase hmem
  have hcongr : ((List.range n).erase a).flatMap g = ((List.range n).erase a).flatMap f := by
    apply List.flatMap_congr
    intro b hb
    have hb2 := (List.Nodup.mem_erase_iff (List.nodup_range n)).mp hb
    exact hsame b (List.mem_range.mp hb2.2) hb2.1
  have h1 : List.Perm ((List.range n).flatMap g) (g a ++ ((List.range n).erase a).flatMap f) := by
    refine (List.Perm.flatMap_right g hp).trans ?_
    rw [List.flatMap_cons, hcongr]
  have h2 : List.Perm ((List.range n).flatMap f) (f a ++ ((List.range n).erase a).flatMap f) := by
    refine (List.Perm.flatMap_right f hp).trans ?_
    rw [List.flatMap_cons]
  refine h1.trans ?_
  refine List.Perm.trans ?_ (List.Perm.append_right extra h2.symm)
  refine (List.Perm.append_right _ hat).trans ?_
  simp only [List.append_assoc]
  exact List.Perm.append_left _ List.perm_append_comm

theorem intersects_point_of_contains (p : Point) (box : Rectangle) (h : box.contains_point p) :
    Rectangle.intersects { min_point := p, max_point := p } box = true := by
  rw [Rectangle.intersects_iff]
  obtain ⟨h1, h2, h3, h4⟩ := h
  exact ⟨⟨h2, h1⟩, h4, h3⟩

/-- C1 (failing input): after the five scenario insertions the root is internal;
the sixth insertion `(200,200) → 6` lands in the leaf at address 1 without a
split, no ancestor MBR is updated, and `search` on the box `[150,150]-[250,250]`,
which contains `(200,200)`, returns the empty list. -/
theorem search_misses_after_nonsplitting_insert :
    (rect 150 150 250 250).well_formed ∧
    (rect 150 150 250 250).contains_point (pt 200 200) ∧
    ∃ t, insert_all (scenario ++ [(pt 200 200, 6)]) RTree.new = .ok t ∧
      t.store.length = 3 ∧
      t.search (rect 150 150 250 250) = .ok [] := by
  refine ⟨by decide!, by decide!, ?_⟩
  refine ⟨{ store := scenario_tree.store.set 1
              { parent := some 2, is_leaf := true,
                entries := [leaf_entry (pt 100 100) 5, leaf_entry (pt 200 200) 6] },
            m_root := 2 }, by decide!, by decide!, by decide!⟩

/-- C4: the five scenario insertions on a fresh tree succeed; the first four
leave a single leaf, the fifth splits it once, giving an internal root with two
leaf children; `search([(0,0),(3,3)])` returns `[1, 2]` and
`search([(40,40),(110,110)])` returns `[3, 4, 5]`. -/
theorem concrete_scenario :
    (∃ t4, insert_all (scenario.take 4) RTree.new = .ok t4 ∧ t4.store.length = 1) ∧
    insert_all scenario RTree.new = .ok scenario_tree ∧
    scenario_tree.store.length = 3 ∧
    (∃ root left right,
      deref scenario_tree.store (some scenario_tree.m_root) = .ok root ∧
      root.is_leaf = false ∧
      root.entries.map (fun e => e.child_ptr) = [some 0, some 1] ∧
      deref scenario_tree.store (some 0) = .ok left ∧ left.is_leaf = true ∧
      deref scenario_tree.store (some 1) = .ok right ∧ right.is_leaf = true) ∧
    scenario_tree.search (rect 0 0 3 3) = .ok [1, 2] ∧
    scenario_tree.search (rect 40 40 110 110) = .ok [3, 4, 5] := by
  refine ⟨⟨_, rfl, by decide!⟩, by decide!, by decide!, ?_, by decide!, by decide!⟩
  exact ⟨_, _, _, rfl, by decide!, by decide!, rfl, by decide!, rfl, by decide!⟩

/-- C3 (failing input): the first 35 insertions of `overlap_trace` succeed and
give `overlap_tree`. The 36th, `(0,0) → 35`, is routed to the leaf at address
17, which overflows and splits; its sibling (MBR `[0,0]-[0,2]`) is appended to
the node at address 2, which overflows and splits; that sibling (MBR
`[0,0]-[3,2]`) is appended to the node at address 7, which overflows. Every
pair of its five entries has `wasted_area ≤ -1`, so the seed selection ends
with both seeds at `-1` and `all_entries[seed1_idx]` is out of range. -/
theorem seed_selection_fails_on_pairwise_overlap :
    insert_all (overlap_trace.take 35) RTree.new = .ok overlap_tree ∧
    overlap_tree.choose_leaf { min_point := pt 0 0, max_point := pt 0 0 } = .ok 17 ∧
    deref overlap_tree.store (some 17) = .ok overlap_leaf ∧
    deref overlap_tree.store (some 2) = .ok overlap_parent ∧
    deref overlap_tree.store (some 7) = .ok overlap_node ∧
    (split_entries { overlap_leaf with
        entries := overlap_leaf.entries ++ [leaf_entry (pt 0 0) 35] }).map
        (fun r => (r.1.get_mbr, r.2.get_mbr)) = .ok (rect 0 2 0 2, rect 0 0 0 2) ∧
    update_child_mbr overlap_parent.entries 17 (rect 0 2 0 2) = overlap_parent.entries ∧
    (split_entries { overlap_parent with
        entries := overlap_parent.entries ++
          [{ mbr := rect 0 0 0 2, child_ptr := some 27, data_id := -1 }] }).map
        (fun r => (r.1.get_mbr, r.2.get_mbr)) = .ok (rect 0 3 3 3, rect 0 0 3 2) ∧
    update_child_mbr overlap_node.entries 2 (rect 0 3 3 3) = overlap_node.entries ∧
    pick_seeds (overlap_node.entries ++ [{ mbr := rect 0 0 3 2, child_ptr := some 28, data_id := -1 }])
      = ((-1 : Int), (-1 : Int), (-1 : ℚ)) ∧
    overlap_tree.insert (pt 0 0) 35 = .error .out_of_range ∧
    insert_all overlap_trace RTree.new = .error .out_of_range := by
  refine ⟨?_, ?_, ?_, ?_, ?_, ?_, ?_, ?_, ?_, ?_, ?_, ?_⟩
  · decide!
  · decide!
  · decide!
  · decide!
  · decide!
  · decide!
  · decide!
  · decide!
  · decide!
  · decide!
  · decide!
  · decide!

/-- C6: for every tree state `t` (reachable or not), after `clear()` the root is
an empty leaf, `search` returns the empty list for every query box, and the
state is the one the constructor builds, so every later sequence of insertions
runs as on a fresh tree. -/
theorem clear_resets (t : RTree) :
    deref t.clear.store (some t.clear.m_root) = .ok { parent := none, is_leaf := true, entries := [] } ∧
    (∀ box : Rectangle, t.clear.search box = .ok []) ∧
    t.clear = RTree.new ∧
    (∀ ops : List (Point × Int), insert_all ops t.clear = insert_all ops RTree.new) :=
  ⟨rfl, fun _ => rfl, rfl, fun _ => rfl⟩

theorem enlargement_zero_of_contains (a b : Rectangle) (h : a.contains_rect b) :
    a.enlargement b = 0 := by
  obtain ⟨h1, h2, h3, h4⟩ := h
  unfold Rectangle.enlargement Rectangle.area
  simp only [min_eq_left h1, min_eq_left h3, max_eq_left h2, max_eq_left h4, sub_self]

theorem contains_of_enlargement_zero (a b : Rectangle)
    (hx : a.min_point.x < a.max_point.x) (hy : a.min_point.y < a.max_point.y)
    (h : a.enlargement b = 0) : a.contains_rect b := by
  unfold Rectangle.enlargement Rectangle.area at h
  simp only at h
  have w0 : 0 < a.max_point.x - a.min_point.x := sub_pos.mpr hx
  have h0 : 0 < a.max_point.y - a.min_point.y := sub_pos.mpr hy
  have w1 : a.max_point.x - a.min_point.x ≤
      max a.max_point.x b.max_point.x - min a.min_point.x b.min_point.x :=
    sub_le_sub (le_max_left _ _) (min_le_left _ _)
  have h1 : a.max_point.y - a.min_point.y ≤
      max a.max_point.y b.max_point.y - min a.min_point.y b.min_point.y :=
    sub_le_sub (le_max_left _ _) (min_le_left _ _)
  have weq : max a.max_point.x b.max_point.x - min a.min_point.x b.min_point.x
      = a.max_point.x - a.min_point.x := by
    by_contra hne
    have hlt := lt_of_le_of_ne w1 (fun e => hne e.symm)
    have := mul_lt_mul hlt h1 h0 (le_of_lt (lt_of_lt_of_le w0 w1))
    linarith
  have heq : max a.max_point.y b.max_point.y - min a.min_point.y b.min_point.y
      = a.max_point.y - a.min_point.y := by
    by_contra hne
    have hlt := lt_of_le_of_ne h1 (fun e => hne e.symm)
    have := mul_lt_mul' w1 hlt (le_of_lt h0) (lt_of_lt_of_le w0 w1)
    linarith
  have a1 : a.max_point.x ≤ max a.max_point.x b.max_point.x := le_max_left _ _
  have a2 : min a.min_point.x b.min_point.x ≤ a.min_point.x := min_le_left _ _
  have a3 : a.max_point.y ≤ max a.max_point.y b.max_point.y := le_max_left _ _
  have a4 : min a.min_point.y b.min_point.y ≤ a.min_point.y := min_le_left _ _
  have b1 : max a.max_point.x b.max_point.x = a.max_point.x := by linarith
  have b2 : min a.min_point.x b.min_point.x = a.min_point.x := by linarith
  have b3 : max a.max_point.y b.max_point.y = a.max_point.y := by linarith
  have b4 : min a.min_point.y b.min_point.y = a.min_point.y := by linarith
  exact ⟨min_eq_left_iff.mp b2, max_eq_left_iff.mp b1, min_eq_left_iff.mp b4, max_eq_left_iff.mp b3⟩

theorem foldl_min_spec (g : Entry → ℚ) (es : List Entry) (init : ℚ) :
    es.foldl (fun acc e => min acc (g e)) init ≤ init ∧
    (∀ e, e ∈ es → es.foldl (fun acc e => min acc (g e)) init ≤ g e) ∧
    (es.foldl (fun acc e => min acc (g e)) init = init ∨
      ∃ e, e ∈ es ∧ es.foldl (fun acc e => min acc (g e)) init = g e) ∧
    (∀ c, c ≤ init → (∀ e, e ∈ es → c ≤ g e) → c ≤ es.foldl (fun acc e => min acc (g e)) init) := by
  induction es generalizing init with
  | nil =>
    exact ⟨le_refl _, fun e he => absurd he (List.not_mem_nil e), Or.inl rfl, fun c hc _ => hc⟩
  | cons x es ih =>
    rw [List.foldl_cons]
    obtain ⟨h1, h2, h3, h4⟩ := ih (min init (g x))
    refine ⟨h1.trans (min_le_left _ _), ?_, ?_, ?_⟩
    · intro e he
      rcases List.mem_cons.mp he with h | h
      · rw [h]; exact h1.trans (min_le_right _ _)
      · exact h2 e h
    · rcases h3 with h | ⟨e, he, hev⟩
      · rcases min_choice init (g x) with hm | hm
        · left; rw [h, hm]
        · right; exact ⟨x, List.mem_cons_self x es, by rw [h, hm]⟩
      · right; exact ⟨e, List.mem_cons_of_mem x he, hev⟩
    · intro c hc hall
      exact h4 c (le_min hc (hall x (List.mem_cons_self x es)))
        (fun e he => hall e (List.mem_cons_of_mem x he))

theorem foldl_max_spec (g : Entry → ℚ) (es : List Entry) (init : ℚ) :
    init ≤ es.foldl (fun acc e => max acc (g e)) init ∧
    (∀ e, e ∈ es → g e ≤ es.foldl (fun acc e => max acc (g e)) init) ∧
    (es.foldl (fun acc e => max acc (g e)) init = init ∨
      ∃ e, e ∈ es ∧ es.foldl (fun acc e => max acc (g e)) init = g e) ∧
    (∀ c, init ≤ c → (∀ e, e ∈ es → g e ≤ c) → es.foldl (fun acc e => max acc (g e)) init ≤ c) := by
  induction es generalizing init with
  | nil =>
    exact ⟨le_refl _, fun e he => absurd he (List.not_mem_nil e), Or.inl rfl, fun c hc _ => hc⟩
  | cons x es ih =>
    rw [List.foldl_cons]
    obtain ⟨h1, h2, h3, h4⟩ := ih (max init (g x))
    refine ⟨(le_max_left _ _).trans h1, ?_, ?_, ?_⟩
    · intro e he
      rcases List.mem_cons.mp he with h | h
      · rw [h]; exact (le_max_right _ _).trans h1
      · exact h2 e h
    · rcases h3 with h | ⟨e, he, hev⟩
      · rcases max_choice init (g x) with hm | hm
        · left; rw [h, hm]
        · right; exact ⟨x, List.mem_cons_self x es, by rw [h, hm]⟩
      · right; exact ⟨e, List.mem_cons_of_mem x he, hev⟩
    · intro c hc hall
      exact h4 c (max_le hc (hall x (List.mem_cons_self x es)))
        (fun e he => hall e (List.mem_cons_of_mem x he))

theorem foldl_get_mbr_step_coords (es : List Entry) (r : Rectangle) :
    (es.foldl get_mbr_step r).min_point.x
      = es.foldl (fun acc e => min acc e.mbr.min_point.x) r.min_point.x ∧
    (es.foldl get_mbr_step r).min_point.y
      = es.foldl (fun acc e => min acc e.mbr.min_point.y) r.min_point.y ∧
    (es.foldl get_mbr_step r).max_point.x
      = es.foldl (fun acc e => max acc e.mbr.max_point.x) r.max_point.x ∧
    (es.foldl get_mbr_step r).max_point.y
      = es.foldl (fun acc e => max acc e.mbr.max_point.y) r.max_point.y := by
  induction es generalizing r with
  | nil => exact ⟨rfl, rfl, rfl, rfl⟩
  | cons x es ih =>
    simp only [List.foldl_cons]
    exact ih (get_mbr_step r x)

/-- C19: for a node with at least one entry, `get_mbr()` has, on each axis, as
min the least of the entries' min corners and as max the greatest of the
entries' max corners (a bound that one entry attains), so it contains the MBR
of every entry and lies inside every rectangle that contains all of them; for
a node without entries it returns the sentinel `{(DBL_MAX, DBL_MAX),
(-DBL_MAX, -DBL_MAX)}`, whose min exceeds its max on both axes. -/
theorem get_mbr_least_bounding (node : RTreeNode) :
    (node.entries ≠ [] →
      (∀ e, e ∈ node.entries → node.get_mbr.contains_rect e.mbr) ∧
      (∃ e, e ∈ node.entries ∧ node.get_mbr.min_point.x = e.mbr.min_point.x) ∧
      (∃ e, e ∈ node.entries ∧ node.get_mbr.min_point.y = e.mbr.min_point.y) ∧
      (∃ e, e ∈ node.entries ∧ node.get_mbr.max_point.x = e.mbr.max_point.x) ∧
      (∃ e, e ∈ node.entries ∧ node.get_mbr.max_point.y = e.mbr.max_point.y) ∧
      (∀ R : Rectangle, (∀ e, e ∈ node.entries → R.contains_rect e.mbr) →
        R.contains_rect node.get_mbr)) ∧
    (node.entries = [] →
      node.get_mbr = empty_mbr ∧
      empty_mbr.max_point.x < empty_mbr.min_point.x ∧
      empty_mbr.max_point.y < empty_mbr.min_point.y) := by
  constructor
  · intro hne
    unfold RTreeNode.get_mbr
    cases hes : node.entries with
    | nil => exact absurd hes hne
    | cons e0 rest =>
      simp only
      obtain ⟨c1, c2, c3, c4⟩ := foldl_get_mbr_step_coords rest e0.mbr
      obtain ⟨a1, a2, a3, a4⟩ := foldl_min_spec (fun e => e.mbr.min_point.x) rest e0.mbr.min_point.x
      obtain ⟨b1, b2, b3, b4⟩ := foldl_min_spec (fun e => e.mbr.min_point.y) rest e0.mbr.min_point.y
      obtain ⟨d1, d2, d3, d4⟩ := foldl_max_spec (fun e => e.mbr.max_point.x) rest e0.mbr.max_point.x
      obtain ⟨f1, f2, f3, f4⟩ := foldl_max_spec (fun e => e.mbr.max_point.y) rest e0.mbr.max_point.y
      rw [← c1] at a1 a2 a3 a4
      rw [← c2] at b1 b2 b3 b4
      rw [← c3] at d1 d2 d3 d4
      rw [← c4] at f1 f2 f3 f4
      refine ⟨?_, ?_, ?_, ?_, ?_, ?_⟩
      · intro e he
        rcases List.mem_cons.mp he with h | h
        · rw [h]; exact ⟨a1, d1, b1, f1⟩
        · exact ⟨a2 e h, d2 e h, b2 e h, f2 e h⟩
      · rcases a3 with h | ⟨e, he, hev⟩
        · exact ⟨e0, List.mem_cons_self e0 rest, h⟩
        · exact ⟨e, List.mem_cons_of_mem e0 he, hev⟩
      · rcases b3 with h | ⟨e, he, hev⟩
        · exact ⟨e0, List.mem_cons_self e0 rest, h⟩
        · exact ⟨e, List.mem_cons_of_mem e0 he, hev⟩
      · rcases d3 with h | ⟨e, he, hev⟩
        · exact ⟨e0, List.mem_cons_self e0 rest, h⟩
        · exact ⟨e, List.mem_cons_of_mem e0 he, hev⟩
      · rcases f3 with h | ⟨e, he, hev⟩
        · exact ⟨e0, List.mem_cons_self e0 rest, h⟩
        · exact ⟨e, List.mem_cons_of_mem e0 he, hev⟩
      · intro R hR
        obtain ⟨r1, r2, r3, r4⟩ := hR e0 (List.mem_cons_self e0 rest)
        exact ⟨a4 _ r1 (fun e he => (hR e (List.mem_cons_of_mem e0 he)).1),
               d4 _ r2 (fun e he => (hR e (List.mem_cons_of_mem e0 he)).2.1),
               b4 _ r3 (fun e he => (hR e (List.mem_cons_of_mem e0 he)).2.2.1),
               f4 _ r4 (fun e he => (hR e (List.mem_cons_of_mem e0 he)).2.2.2)⟩
  · intro he
    refine ⟨?_, by decide!, by decide!⟩
    unfold RTreeNode.get_mbr
    rw [he]
    rfl

/-- C14 (failing input): after the first ten insertions of `stale_parent_trace`
the leaf at address 3 is owned by an entry of the node at address 6, but its
parent pointer designates the node at address 2, which has no entry for it.
The eleventh insertion is routed to that leaf and splits it: the new sibling
(address 8) is appended to the node at address 2, and the entry of the owner
keeps the MBR `[2,2]-[2,9]` although the leaf now has MBR `[2,9]-[2,9]`. -/
theorem parent_pointer_goes_stale :
    insert_all (stale_parent_trace.take 10) RTree.new = .ok stale_parent_tree ∧
    (deref stale_parent_tree.store (some 3)).map (fun n => n.parent) = .ok (some 2) ∧
    children_at stale_parent_tree.store 2 = [some 1, some 0] ∧
    children_at stale_parent_tree.store 6 = [some 5, some 3, some 4] ∧
    stale_parent_tree.choose_leaf { min_point := pt 2 4, max_point := pt 2 4 } = .ok 3 ∧
    insert_all stale_parent_trace RTree.new = .ok stale_parent_tree_after ∧
    children_at stale_parent_tree_after.store 2 = [some 1, some 0, some 8] ∧
    children_at stale_parent_tree_after.store 6 = [some 5, some 3, some 4] ∧
    (deref stale_parent_tree_after.store (some 6)).map (fun n => n.entries.map (fun e => e.mbr))
      = .ok [rect 1 1 1 1, rect 2 2 2 9, rect 3 7 3 7] ∧
    (deref stale_parent_tree_after.store (some 3)).map (fun n => n.get_mbr)
      = .ok (rect 2 9 2 9) := by
  refine ⟨?_, ?_, ?_, ?_, ?_, ?_, ?_, ?_, ?_, ?_⟩
  · decide!
  · decide!
  · decide!
  · decide!
  · decide!
  · decide!
  · decide!
  · decide!
  · decide!
  · decide!

/-- C15 (failing input): the five scenario insertions followed by
`(200,200) → 6`. The sixth insertion triggers no split, and afterwards the
root entry over the leaf at address 1 has MBR `[100,100]-[100,100]`, while that
leaf's `get_mbr()` is `[100,100]-[200,200]`; the entry's MBR does not contain
the stored point `(200,200)`. -/
theorem ancestor_mbr_stale_after_nonsplitting_insert :
    insert_all (scenario ++ [(pt 200 200, 6)]) RTree.new = .ok stale_mbr_tree ∧
    stale_mbr_tree.store.length = scenario_tree.store.length ∧
    (deref stale_mbr_tree.store (some stale_mbr_tree.m_root)).map
        (fun n => n.entries.map (fun e => (e.mbr, e.child_ptr)))
      = .ok [(rect 1 1 51 51, some 0), (rect 100 100 100 100, some 1)] ∧
    (deref stale_mbr_tree.store (some 1)).map (fun n => n.get_mbr)
      = .ok (rect 100 100 200 200) ∧
    (deref stale_mbr_tree.store (some 1)).map (fun n => n.entries)
      = .ok [leaf_entry (pt 100 100) 5, leaf_entry (pt 200 200) 6] ∧
    ¬ (rect 100 100 100 100).contains_point (pt 200 200) := by
  refine ⟨?_, ?_, ?_, ?_, ?_, ?_⟩
  · decide!
  · decide!
  · decide!
  · decide!
  · decide!
  · decide!

/-- C20: with `max_entries = 4` and `min_entries = 2`, the five scenario
insertions `(1,1)`, `(2,2)`, `(50,50)`, `(51,51)`, `(100,100)` end in a tree in
which the split left four entries in the old leaf (address 0) and a single
entry, fewer than `min_entries`, in its sibling (address 1), a non-root node
created by the split. -/
theorem minimum_fill_not_guaranteed :
    m_max_entries = 4 ∧ m_min_entries = 2 ∧
    ∃ t, insert_all scenario RTree.new = .ok t ∧
      (deref t.store (some 0)).map (fun n => n.entries.length) = .ok 4 ∧
      ∃ n, deref t.store (some 1) = .ok n ∧ 1 ≠ t.m_root ∧ n.parent = some t.m_root ∧
        n.entries.length = 1 ∧ n.entries.length < m_min_entries := by
  refine ⟨rfl, rfl, scenario_tree, ?_, ?_, _, rfl, ?_, ?_, ?_, ?_⟩
  · decide!
  · decide!
  · decide!
  · decide!
  · decide!
  · decide!

theorem foldl_range'_invariant {β : Type} (f : β → Nat → β) (P : Nat → β → Prop) (s : Nat) :
    ∀ (n : Nat) (b : β), P s b →
      (∀ j b, s ≤ j → j < s + n → P j b → P (j + 1) (f b j)) →
      P (s + n) ((List.range' s n).foldl f b) := by
  intro n
  induction n with
  | zero => intro b h0 _; simpa using h0
  | succ n ih =>
    intro b h0 hstep
    rw [List.range'_concat, List.foldl_append, List.foldl_cons, List.foldl_nil, Nat.one_mul]
    have := ih b h0 (fun j b hj1 hj2 hp => hstep j b hj1 (by omega) hp)
    have h2 := hstep (s + n) _ (by omega) (by omega) this
    rw [← Nat.add_assoc]
    exact h2

theorem seed_step_invariant (l : List Entry) (i j : Nat) (st : SeedState)
    (hij : i < j) (hj : j < l.length)
    (h : seeds_hold l st ∧
      ∀ k m, k < m → m < l.length → (k < i ∨ (k = i ∧ m < j)) → wasted_area l k m ≤ st.2.2) :
    seeds_hold l (seed_step l i st j) ∧
      ∀ k m, k < m → m < l.length → (k < i ∨ (k = i ∧ m < j + 1)) →
        wasted_area l k m ≤ (seed_step l i st j).2.2 := by
  obtain ⟨hv, hmax⟩ := h
  have hge : -1 ≤ st.2.2 := by
    rcases hv with ⟨_, _, h3⟩ | ⟨_, _, _, _, h5⟩
    · rw [h3]
    · exact le_of_lt h5
  unfold seed_step
  split
  · rename_i hgt
    refine ⟨Or.inr ⟨by simp, by simp only; omega, by simp only; omega, by simp, ?_⟩, ?_⟩
    · simp only; exact lt_of_le_of_lt hge hgt
    · intro k m hkm hm hcase
      simp only
      rcases hcase with h1 | ⟨h1, h2⟩
      · exact le_of_lt (lt_of_le_of_lt (hmax k m hkm hm (Or.inl h1)) hgt)
      · by_cases hmj : m < j
        · exact le_of_lt (lt_of_le_of_lt (hmax k m hkm hm (Or.inr ⟨h1, hmj⟩)) hgt)
        · have : m = j := by omega
          rw [h1, this]
  · rename_i hngt
    refine ⟨hv, ?_⟩
    intro k m hkm hm hcase
    rcases hcase with h1 | ⟨h1, h2⟩
    · exact hmax k m hkm hm (Or.inl h1)
    · by_cases hmj : m < j
      · exact hmax k m hkm hm (Or.inr ⟨h1, hmj⟩)
      · have : m = j := by omega
        rw [h1, this]
        exact not_lt.mp hngt

/-- After both seed-selection loops the state holds a wasted area that no pair
exceeds; when it is not the initial state, it is the wasted area of the pair
it holds. -/
theorem pick_seeds_maximal (l : List Entry) :
    seeds_hold l (pick_seeds l) ∧
    ∀ k m, k < m → m < l.length → wasted_area l k m ≤ (pick_seeds l).2.2 := by
  have key := foldl_range'_invariant
    (fun (st : SeedState) (i : Nat) =>
      (List.range' (i + 1) (l.length - (i + 1))).foldl (seed_step l i) st)
    (fun i st => seeds_hold l st ∧
      ∀ k m, k < m → m < l.length → k < i → wasted_area l k m ≤ st.2.2)
    0 l.length ((-1 : Int), (-1 : Int), (-1 : ℚ))
    ⟨Or.inl ⟨rfl, rfl, rfl⟩, fun k m _ _ hk => absurd hk (Nat.not_lt_zero k)⟩
    (by
      intro i st _ hi hst
      simp only [Nat.zero_add] at hi
      have inner := foldl_range'_invariant (seed_step l i)
        (fun j st => seeds_hold l st ∧
          ∀ k m, k < m → m < l.length → (k < i ∨ (k = i ∧ m < j)) → wasted_area l k m ≤ st.2.2)
        (i + 1) (l.length - (i + 1)) st
        ⟨hst.1, fun k m hkm hm hcase => by
          rcases hcase with h1 | ⟨h1, h2⟩
          · exact hst.2 k m hkm hm h1
          · omega⟩
        (fun j st1 hj1 hj2 hp => seed_step_invariant l i j st1 (by omega) (by omega) hp)
      refine ⟨inner.1, ?_⟩
      intro k m hkm hm hk
      apply inner.2 k m hkm hm
      by_cases hki : k < i
      · exact Or.inl hki
      · exact Or.inr ⟨by omega, by omega⟩)
  simp only [Nat.zero_add] at key
  unfold pick_seeds
  rw [List.range_eq_range']
  exact ⟨key.1, fun k m hkm hm => key.2 k m hkm hm (by omega)⟩

/-- C17 (failing input): the scratch list `overlap_entries` of the split that
fails in `overlap_trace` has five entries with well-formed MBRs; every pair
wastes at most `-1`, the seed selection ends with both indices at `-1`, no
pair is chosen. For every scratch list in which some pair wastes more than
`-1`, the seed selection does choose indices `i < j` in range whose wasted area
no pair exceeds. -/
theorem seed_selection_not_maximal_on_overlap :
    overlap_entries.length = 5 ∧
    (∀ e, e ∈ overlap_entries → e.mbr.well_formed) ∧
    pick_seeds overlap_entries = ((-1 : Int), (-1 : Int), (-1 : ℚ)) ∧
    wasted_area overlap_entries 0 1 = -2 ∧
    (∀ (l : List Entry) (k m : Nat), k < m → m < l.length → -1 < wasted_area l k m →
      0 ≤ (pick_seeds l).1 ∧ (pick_seeds l).1 < (pick_seeds l).2.1 ∧
      (pick_seeds l).2.1 < (l.length : Int) ∧
      ∀ k1 m1, k1 < m1 → m1 < l.length →
        wasted_area l k1 m1 ≤ wasted_area l (pick_seeds l).1.toNat (pick_seeds l).2.1.toNat) := by
  refine ⟨?_, ?_, ?_, ?_, ?_⟩
  · decide!
  · decide!
  · decide!
  · decide!
  · intro l k m hkm hm hw
    obtain ⟨hv, hmax⟩ := pick_seeds_maximal l
    rcases hv with ⟨_, _, h3⟩ | ⟨h1, h2, h3, h4, _⟩
    · have := hmax k m hkm hm
      rw [h3] at this
      exact absurd (lt_of_lt_of_le hw this) (lt_irrefl _)
    · refine ⟨h1, h2, h3, ?_⟩
      intro k1 m1 hk1 hm1
      rw [← h4]
      exact hmax k1 m1 hk1 hm1

theorem round_to_double_zero : Binary64.round_to_double 0 = .fin 0 := by
  unfold Binary64.round_to_double
  rw [if_pos rfl]

theorem fsub_self_fin (v : ℚ) : Binary64.fsub (.fin v) (.fin v) = .fin 0 := by
  unfold Binary64.fsub
  simp only [sub_self]
  exact round_to_double_zero

theorem fmul_zero_fin (h : ℚ) : Binary64.fmul (.fin 0) (.fin h) = .fin 0 := by
  unfold Binary64.fmul
  simp only [zero_mul]
  exact round_to_double_zero

theorem fmul_fin_zero (h : ℚ) : Binary64.fmul (.fin h) (.fin 0) = .fin 0 := by
  unfold Binary64.fmul
  simp only [mul_zero]
  exact round_to_double_zero

/-- When `a <= b` holds for two `double`s, `b < a` does not. -/
theorem flt_false_of_fle (a b : Binary64.Double) (h : Binary64.fle a b = true) :
    Binary64.flt b a = false := by
  unfold Binary64.fle at h
  cases a with
  | fin x =>
    cases b with
    | fin y =>
      simp only [Binary64.flt, Binary64.feq, Bool.or_eq_true, decide_eq_true_eq] at h ⊢
      simp only [decide_eq_false_iff_not, not_lt]
      rcases h with h | h
      · exact le_of_lt h
      · exact le_of_eq h
    | inf s => cases s <;> simp_all [Binary64.flt, Binary64.feq]
    | nan => simp_all [Binary64.flt, Binary64.feq]
  | inf s =>
    cases b with
    | fin y => cases s <;> simp_all [Binary64.flt, Binary64.feq]
    | inf s2 => cases s <;> cases s2 <;> simp_all [Binary64.flt, Binary64.feq]
    | nan => simp_all [Binary64.flt, Binary64.feq]
  | nan => simp_all [Binary64.flt, Binary64.feq]

/-- In `double` arithmetic, the enlargement of `a` by a rectangle it contains
is `0` whenever the area of `a` is finite. -/
theorem enlargement64_zero_of_contains (a b : Binary64.Rectangle) (v : ℚ)
    (hc : a.contains_rect b) (hv : a.area = .fin v) : a.enlargement b = .fin 0 := by
  obtain ⟨h1, h2, h3, h4⟩ := hc
  have e1 : Binary64.fmin a.min_point.x b.min_point.x = a.min_point.x := by
    unfold Binary64.fmin; rw [flt_false_of_fle _ _ h1]; rfl
  have e2 : Binary64.fmin a.min_point.y b.min_point.y = a.min_point.y := by
    unfold Binary64.fmin; rw [flt_false_of_fle _ _ h3]; rfl
  have e3 : Binary64.fmax a.max_point.x b.max_point.x = a.max_point.x := by
    unfold Binary64.fmax; rw [flt_false_of_fle _ _ h2]; rfl
  have e4 : Binary64.fmax a.max_point.y b.max_point.y = a.max_point.y := by
    unfold Binary64.fmax; rw [flt_false_of_fle _ _ h4]; rfl
  unfold Binary64.Rectangle.enlargement
  simp only [e1, e2, e3, e4]
  have : Binary64.fmul (Binary64.fsub a.max_point.x a.min_point.x)
      (Binary64.fsub a.max_point.y a.min_point.y) = a.area := rfl
  rw [this, hv]
  exact fsub_self_fin v

/-- The index that `pick_best` ends with is `-1` or an index of the scratch
list. -/
theorem pick_best64_range (all_entries : List Binary64.Entry) (assigned : List Bool)
    (node new_node : Binary64.RTreeNode) :
    Binary64.pick_best all_entries assigned node new_node = -1 ∨
    (0 ≤ Binary64.pick_best all_entries assigned node new_node ∧
      Binary64.pick_best all_entries assigned node new_node < (all_entries.length : Int)) := by
  unfold Binary64.pick_best
  apply foldl_invariant
    (fun (st : Int × Binary64.Double) => st.1 = -1 ∨ (0 ≤ st.1 ∧ st.1 < (all_entries.length : Int)))
  · left; rfl
  · intro st i hi hst
    have hlt := List.mem_range.mp hi
    unfold Binary64.best_step
    split
    · exact hst
    · simp only
      split
      · right; simp only; omega
      · exact hst

theorem vec_at64_ok (v : List Binary64.Entry) (i : Int) (h0 : 0 ≤ i) (h1 : i < (v.length : Int)) :
    ∃ e, Binary64.vec_at v i = .ok e ∧ v[i.toNat]? = some e := by
  have hlt : i.toNat < v.length := by omega
  refine ⟨v[i.toNat], ?_, List.getElem?_eq_getElem hlt⟩
  unfold Binary64.vec_at
  rw [if_neg (by omega), List.getElem?_eq_getElem hlt]

/-! ## Claims settled in binary64 arithmetic -/

/-- C5 (failing input), in binary64 arithmetic: the fifth insertion of
`drop_trace` splits the root leaf with seeds `(0,0)` and `(2^600, 2^600)`; the
first round of the distribution loop adds `(-2^600, 2^600)` to the sibling; in
the second round both enlargement costs of both remaining entries are `+inf`,
the difference `|inf - inf|` is NaN, `diff > max_diff` is false against the
initial `-1.0`, no entry is picked and the loop breaks. The tree ends with
three leaf entries, and `search` does not return the identifiers 4 and 5 for
boxes that contain their points. -/
theorem fifth_insert_drops_entries_on_overflow :
    Binary64.insert_all Binary64.drop_trace Binary64.RTree.new = .ok Binary64.drop_tree ∧
    Binary64.pick_seeds Binary64.drop_entries
      = ((0 : Int), (1 : Int), Binary64.Double.inf false) ∧
    Binary64.fsub
        (Binary64.drop_node.get_mbr.enlargement (Binary64.rect (2 ^ 600) (-2 ^ 600) (2 ^ 600) (-2 ^ 600)))
        (Binary64.drop_sibling.get_mbr.enlargement
          (Binary64.rect (2 ^ 600) (-2 ^ 600) (2 ^ 600) (-2 ^ 600)))
      = Binary64.Double.nan ∧
    Binary64.fgt Binary64.Double.nan (Binary64.Double.fin (-1)) = false ∧
    Binary64.pick_best Binary64.drop_entries [true, true, true, false, false]
      Binary64.drop_node Binary64.drop_sibling = -1 ∧
    Binary64.drop_tree.search (Binary64.rect (2 ^ 600) (-2 ^ 600) (2 ^ 600) (-2 ^ 600)) = .ok [] ∧
    Binary64.drop_tree.search (Binary64.rect (-2 ^ 600) (-2 ^ 600) (-2 ^ 600) (-2 ^ 600)) = .ok [] ∧
    Binary64.drop_tree.search (Binary64.rect (-2 ^ 600) (-2 ^ 600) (2 ^ 600) (2 ^ 600))
      = .ok [1, 2, 3] := by
  refine ⟨?_, ?_, ?_, ?_, ?_, ?_, ?_, ?_⟩
  · decide!
  · decide!
  · decide!
  · decide!
  · decide!
  · decide!
  · decide!
  · decide!

/-- C22 (failing input), in binary64 arithmetic: after the five insertions of
`drop_trace` the nodes of the tree hold the leaf entries with identifiers 1, 2
and 3 only, and for the box `[-2^600, 2^600]²`, which contains all five
inserted points, `search` returns `[1, 2, 3]`, which is not a permutation of
the inserted identifiers. -/
theorem entries_not_conserved_on_overflow :
    (Binary64.insert_all Binary64.drop_trace Binary64.RTree.new).map
        (fun t => t.store.map (fun n => n.entries.map (fun e => (e.child_ptr, e.data_id))))
      = .ok [[(none, 1)], [(none, 2), (none, 3)], [(some 0, -1), (some 1, -1)]] ∧
    (∀ op, op ∈ Binary64.drop_trace →
      (Binary64.rect (-2 ^ 600) (-2 ^ 600) (2 ^ 600) (2 ^ 600)).contains_rect
        { min_point := op.1, max_point := op.1 }) ∧
    (Binary64.insert_all Binary64.drop_trace Binary64.RTree.new).bind
        (fun t => t.search (Binary64.rect (-2 ^ 600) (-2 ^ 600) (2 ^ 600) (2 ^ 600)))
      = .ok [1, 2, 3] ∧
    ¬ List.Perm [1, 2, 3] (Binary64.drop_trace.map (fun op => op.2)) := by
  refine ⟨?_, ?_, ?_, ?_⟩
  · decide!
  · decide!
  · decide!
  · intro h
    have := h.length_eq
    revert this
    decide

/-- C16 (failing input), in binary64 arithmetic: in the tree of the scenario,
the combined area of either root entry with the point `(2^600, 2^600)`
overflows, so both enlargement costs are `+inf`; `inf < DBL_MAX` and
`inf == DBL_MAX` are false, the inner loop of `choose_leaf` takes no entry,
`next_node` stays `nullptr` and the descent dereferences it instead of ending
at a leaf, also when it is started by `insert((2^600, 2^600), 6)`. -/
theorem choose_leaf_null_on_overflow :
    Binary64.insert_all Binary64.scenario Binary64.RTree.new = .ok Binary64.scenario_tree ∧
    (Binary64.rect 1 1 51 51).enlargement (Binary64.rect (2 ^ 600) (2 ^ 600) (2 ^ 600) (2 ^ 600))
      = Binary64.Double.inf false ∧
    (Binary64.rect 100 100 100 100).enlargement
        (Binary64.rect (2 ^ 600) (2 ^ 600) (2 ^ 600) (2 ^ 600))
      = Binary64.Double.inf false ∧
    Binary64.flt (Binary64.Double.inf false) Binary64.DBL_MAX = false ∧
    Binary64.feq (Binary64.Double.inf false) Binary64.DBL_MAX = false ∧
    Binary64.choose_subtree
        [{ mbr := Binary64.rect 1 1 51 51, child_ptr := some 0, data_id := -1 },
         { mbr := Binary64.rect 100 100 100 100, child_ptr := some 1, data_id := -1 }]
        (Binary64.rect (2 ^ 600) (2 ^ 600) (2 ^ 600) (2 ^ 600)) = none ∧
    Binary64.scenario_tree.choose_leaf (Binary64.rect (2 ^ 600) (2 ^ 600) (2 ^ 600) (2 ^ 600))
      = .error .null_deref ∧
    Binary64.scenario_tree.insert (Binary64.pt (2 ^ 600) (2 ^ 600)) 6 = .error .null_deref := by
  refine ⟨?_, ?_, ?_, ?_, ?_, ?_, ?_, ?_⟩
  · decide!
  · decide!
  · decide!
  · decide!
  · decide!
  · decide!
  · decide!
  · decide!

/-- C18 fails as stated, in binary64 arithmetic: in the split of
`column_entries`, after the seeds `(0,0)` and `(0,1)` the picked entry is
`(0,2)`; its enlargement cost is 0 for `node` and 0 for the sibling, and it is
added to the sibling, not to `node`. -/
theorem distribution_tie_goes_to_sibling :
    Binary64.pick_best Binary64.column_entries [true, true, false, false, false]
      Binary64.column_node Binary64.column_sibling = 2 ∧
    Binary64.column_node.get_mbr.enlargement (Binary64.rect 0 2 0 2) = Binary64.Double.fin 0 ∧
    Binary64.column_sibling.get_mbr.enlargement (Binary64.rect 0 2 0 2) = Binary64.Double.fin 0 ∧
    Binary64.distribute Binary64.column_entries 4 Binary64.column_node Binary64.column_sibling
        [true, true, false, false, false]
      = Binary64.distribute Binary64.column_entries 3 Binary64.column_node
          { Binary64.column_sibling with
            entries := Binary64.column_sibling.entries ++ [Binary64.leaf_entry 0 2 3] }
          [true, true, true, false, false] ∧
    Binary64.distribute Binary64.column_entries 4 Binary64.column_node Binary64.column_sibling
        [true, true, false, false, false]
      ≠ Binary64.distribute Binary64.column_entries 3
          { Binary64.column_node with
            entries := Binary64.column_node.entries ++ [Binary64.leaf_entry 0 2 3] }
          Binary64.column_sibling [true, true, true, false, false] ∧
    (Binary64.split_entries { parent := none, is_leaf := true, entries := Binary64.column_entries }).map
        (fun r => (r.1.entries.map (fun e => e.data_id), r.2.entries.map (fun e => e.data_id)))
      = .ok ([1], [2, 3, 4, 5]) := by
  refine ⟨?_, ?_, ?_, ?_, ?_, ?_⟩
  · decide!
  · decide!
  · decide!
  · decide!
  · decide!
  · decide!

/-- C18 (amended), in binary64 arithmetic: in each round of the distribution
loop in which an entry is picked (`best_entry_idx != -1`), the picked entry is
an entry of the scratch list; it is added to `node` when `cost1 < cost2`
holds for its two enlargement costs, and to the sibling in every other case:
when the sibling's cost is smaller, when the two costs are equal, and when the
costs do not compare. -/
theorem distribution_round_rule (all_entries : List Binary64.Entry) (fuel : Nat)
    (node new_node : Binary64.RTreeNode) (assigned : List Bool)
    (hna : all_assigned assigned = false)
    (hbest : Binary64.pick_best all_entries assigned node new_node ≠ -1) :
    ∃ e, all_entries[(Binary64.pick_best all_entries assigned node new_node).toNat]? = some e ∧
      (Binary64.flt (node.get_mbr.enlargement e.mbr) (new_node.get_mbr.enlargement e.mbr) = true →
        Binary64.distribute all_entries (fuel + 1) node new_node assigned
          = Binary64.distribute all_entries fuel
              { node with entries := node.entries ++ [e] } new_node
              (assigned.set (Binary64.pick_best all_entries assigned node new_node).toNat true)) ∧
      (Binary64.flt (node.get_mbr.enlargement e.mbr) (new_node.get_mbr.enlargement e.mbr) = false →
        Binary64.distribute all_entries (fuel + 1) node new_node assigned
          = Binary64.distribute all_entries fuel node
              { new_node with entries := new_node.entries ++ [e] }
              (assigned.set (Binary64.pick_best all_entries assigned node new_node).toNat true)) := by
  rcases pick_best64_range all_entries assigned node new_node with h | ⟨h0, h1⟩
  · exact absurd h hbest
  · obtain ⟨e, he1, he2⟩ := vec_at64_ok all_entries _ h0 h1
    refine ⟨e, he2, ?_, ?_⟩
    · intro hlt
      rw [Binary64.distribute]
      simp only [hna, Bool.false_eq_true, if_false]
      rw [if_pos hbest, he1]
      simp only [hlt, if_true]
    · intro hlt
      rw [Binary64.distribute]
      simp only [hna, Bool.false_eq_true, if_false]
      rw [if_pos hbest, he1]
      simp only [hlt, Bool.false_eq_true, if_false]

/-- Witness for the amended C18: the first round of the split of
`column_entries`, in which the two costs are equal. -/
theorem distribution_round_rule_witness :
    all_assigned [true, true, false, false, false] = false ∧
    Binary64.pick_best Binary64.column_entries [true, true, false, false, false]
      Binary64.column_node Binary64.column_sibling ≠ -1 ∧
    ∃ e, Binary64.column_entries[(Binary64.pick_best Binary64.column_entries
        [true, true, false, false, false] Binary64.column_node
        Binary64.column_sibling).toNat]? = some e ∧
      (Binary64.flt (Binary64.column_node.get_mbr.enlargement e.mbr)
          (Binary64.column_sibling.get_mbr.enlargement e.mbr) = false →
        Binary64.distribute Binary64.column_entries (3 + 1) Binary64.column_node
            Binary64.column_sibling [true, true, false, false, false]
          = Binary64.distribute Binary64.column_entries 3 Binary64.column_node
              { Binary64.column_sibling with
                entries := Binary64.column_sibling.entries ++ [e] }
              ([true, true, false, false, false].set
                (Binary64.pick_best Binary64.column_entries [true, true, false, false, false]
                  Binary64.column_node Binary64.column_sibling).toNat true)) := by
  obtain ⟨e, h1, _, h3⟩ := distribution_round_rule Binary64.column_entries 3
    Binary64.column_node Binary64.column_sibling [true, true, false, false, false]
    (by decide) (by decide!)
  exact ⟨by decide, by decide!, e, h1, h3⟩

/-- C12 fails as stated, in binary64 arithmetic: the rectangle
`{(10, -2^1023), (10, 2^1023)}` has finite corners and zero width, its height
overflows to `+inf`, and its area is `0 * inf`, which is NaN, not 0; and the
rectangle `{(0,0), (2^27 + 1, 2^27 + 1)}` has the area `2^54 + 2^28`, not the
product `2^54 + 2^28 + 1` of its width and height. -/
theorem area_not_width_times_height :
    Binary64.fsub (Binary64.Double.fin 10) (Binary64.Double.fin 10) = Binary64.Double.fin 0 ∧
    Binary64.fsub (Binary64.Double.fin (2 ^ 1023)) (Binary64.Double.fin (-2 ^ 1023))
      = Binary64.Double.inf false ∧
    (Binary64.rect 10 (-2 ^ 1023) 10 (2 ^ 1023)).area = Binary64.Double.nan ∧
    (Binary64.rect 10 (-2 ^ 1023) 10 (2 ^ 1023)).area ≠ Binary64.Double.fin 0 ∧
    (Binary64.rect 0 0 (2 ^ 27 + 1) (2 ^ 27 + 1)).area = Binary64.Double.fin (2 ^ 54 + 2 ^ 28) ∧
    (Binary64.rect 0 0 (2 ^ 27 + 1) (2 ^ 27 + 1)).area
      ≠ Binary64.Double.fin ((2 ^ 27 + 1 - 0) * (2 ^ 27 + 1 - 0)) := by
  refine ⟨?_, ?_, ?_, ?_, ?_, ?_⟩
  · decide!
  · decide!
  · decide!
  · decide!
  · decide!
  · decide!

/-- C12 (amended), in binary64 arithmetic: for every rectangle `r`, `r.area()`
is the `double` product of the `double` differences `max.x - min.x` and
`max.y - min.y`; a rectangle with finite corners and zero width has area 0
whenever its height is finite, and one with zero height whenever its width is
finite; `{(10,10),(10,20)}` has area 0 and `{(0,0),(2,3)}` has area 6. -/
theorem area_is_rounded_product (r : Binary64.Rectangle) :
    r.area = Binary64.fmul (Binary64.fsub r.max_point.x r.min_point.x)
      (Binary64.fsub r.max_point.y r.min_point.y) ∧
    (∀ x h : ℚ, r.min_point.x = .fin x → r.max_point.x = .fin x →
      Binary64.fsub r.max_point.y r.min_point.y = .fin h → r.area = .fin 0) ∧
    (∀ y w : ℚ, r.min_point.y = .fin y → r.max_point.y = .fin y →
      Binary64.fsub r.max_point.x r.min_point.x = .fin w → r.area = .fin 0) ∧
    (Binary64.rect 10 10 10 20).area = .fin 0 ∧ (Binary64.rect 0 0 2 3).area = .fin 6 := by
  refine ⟨rfl, ?_, ?_, by decide!, by decide!⟩
  · intro x h h1 h2 h3
    unfold Binary64.Rectangle.area
    rw [h3, h1, h2, fsub_self_fin, fmul_zero_fin]
  · intro y w h1 h2 h3
    unfold Binary64.Rectangle.area
    rw [h3, h1, h2, fsub_self_fin, fmul_fin_zero]

/-- C11 fails as stated. In exact arithmetic: the point rectangle
`a = {(0,0),(0,0)}` and the point rectangle `b = {(1,0),(1,0)}` are well
formed, their union is a segment of area 0, so `a.enlargement(b) = 0`, yet `b`
is not contained in `a`; the same holds in binary64 arithmetic. In binary64
arithmetic also for an `a` of positive width and height: for
`a = {(0,0),(2^-600, 2^-600)}` and the point `b = (2^-599, 0)` both areas
underflow to 0, so `a.enlargement(b) = 0`, yet `b` is not contained in `a`. -/
theorem enlargement_zero_without_containment :
    ¬ (∀ a b : Rectangle, a.well_formed → b.well_formed →
        (a.enlargement b = 0 ↔ a.contains_rect b)) ∧
    (Binary64.rect 0 0 0 0).enlargement (Binary64.rect 1 0 1 0) = .fin 0 ∧
    ¬ (Binary64.rect 0 0 0 0).contains_rect (Binary64.rect 1 0 1 0) ∧
    Binary64.flt (.fin 0) (.fin (Binary64.pow2 (-600))) = true ∧
    (Binary64.rect 0 0 (Binary64.pow2 (-600)) (Binary64.pow2 (-600))).enlargement
        (Binary64.rect (Binary64.pow2 (-599)) 0 (Binary64.pow2 (-599)) 0) = .fin 0 ∧
    ¬ (Binary64.rect 0 0 (Binary64.pow2 (-600)) (Binary64.pow2 (-600))).contains_rect
        (Binary64.rect (Binary64.pow2 (-599)) 0 (Binary64.pow2 (-599)) 0) := by
  refine ⟨?_, ?_, ?_, ?_, ?_, ?_⟩
  · intro h
    have h2 := (h (rect 0 0 0 0) (rect 1 0 1 0) (by decide!) (by decide!)).mp (by decide!)
    revert h2
    decide!
  · decide!
  · decide!
  · decide!
  · decide!
  · decide!

/-- C11 (amended). In exact arithmetic, for every rectangle `a` of positive
width and height (`a.min < a.max` on both axes) and every rectangle `b`,
`a.enlargement(b) = 0` if and only if `b` is contained in `a`. In binary64
arithmetic, for all rectangles `a2` and `b2`, if `b2` is contained in `a2` and
the area of `a2` is finite, then `a2.enlargement(b2) = 0`. -/
theorem enlargement_zero_iff_contains (a b : Rectangle)
    (hx : a.min_point.x < a.max_point.x) (hy : a.min_point.y < a.max_point.y)
    (a2 b2 : Binary64.Rectangle) (v : ℚ) (hc : a2.contains_rect b2) (hv : a2.area = .fin v) :
    (a.enlargement b = 0 ↔ a.contains_rect b) ∧ a2.enlargement b2 = .fin 0 :=
  ⟨⟨contains_of_enlargement_zero a b hx hy, enlargement_zero_of_contains a b⟩,
   enlargement64_zero_of_contains a2 b2 v hc hv⟩

/-- Witness for the amended C11 at `a = [0,0]-[2,2]`, `b = [1,1]-[2,2]`, in
both arithmetics. -/
theorem enlargement_zero_iff_contains_witness :
    (rect 0 0 2 2).min_point.x < (rect 0 0 2 2).max_point.x ∧
    (rect 0 0 2 2).min_point.y < (rect 0 0 2 2).max_point.y ∧
    (Binary64.rect 0 0 2 2).contains_rect (Binary64.rect 1 1 2 2) ∧
    (Binary64.rect 0 0 2 2).area = .fin 4 ∧
    ((rect 0 0 2 2).enlargement (rect 1 1 2 2) = 0 ↔ (rect 0 0 2 2).contains_rect (rect 1 1 2 2)) ∧
    (Binary64.rect 0 0 2 2).enlargement (Binary64.rect 1 1 2 2) = .fin 0 :=
  ⟨by decide!, by decide!, by decide!, by decide!,
   enlargement_zero_iff_contains (rect 0 0 2 2) (rect 1 1 2 2) (by decide!) (by decide!)
     (Binary64.rect 0 0 2 2) (Binary64.rect 1 1 2 2) 4 (by decide!) (by decide!)⟩

end RTreeSpatial
